import Mathlib

/-!
Verification development for the persona-backend repository.

The repository is JavaScript; its values are dynamic JSON-like objects.
We embed them as the inductive type `Json` below, embed each function of
the repository that the properties concern as a Lean function over `Json`
(or over plain strings / lists where the source works on those), and prove
the stated properties about those embeddings.

Conventions used throughout:
- a JS object is `Json.obj fields` with `fields : List (String × Json)`;
  reading an absent property yields `none` (JS `undefined`);
- JS truthiness is `jsTruthy`;
- a thrown JS exception is an `Except.error` carrying the message;
- numbers are `Rat` (every numeric literal in the repository is exactly
  representable); JS `NaN` is modelled as `none : Option Rat` where it can
  arise.
-/

set_option maxHeartbeats 1000000
set_option maxRecDepth 4000
set_option linter.unusedVariables false
set_option linter.unreachableTactic false
set_option linter.unusedTactic false

/-- Json models a JavaScript runtime value: null, boolean, number, string,
array or object (an ordered field list; later assignments override). -/
inductive Json where
  | null : Json
  | bool (b : Bool) : Json
  | num (x : Rat) : Json
  | str (s : String) : Json
  | arr (xs : List Json) : Json
  | obj (fields : List (String × Json)) : Json

namespace Json

/-- Read property `k` of a value; `none` models JS `undefined` (also when the
value is not an object, matching property reads on primitives that miss). -/
def jget : Json → String → Option Json
  | obj fields, k => (fields.find? (fun p => p.1 = k)).map (·.2)
  | _, _ => none

/-- Field-list lookup used by `jget`. -/
def fget (fields : List (String × Json)) (k : String) : Option Json :=
  (fields.find? (fun p => p.1 = k)).map (·.2)

/-- Assign property `k := v` on a field list (JS assignment semantics: an
existing key keeps its position and takes the new value, a new key is
appended). -/
def fset : List (String × Json) → String → Json → List (String × Json)
  | [], k, v => [(k, v)]
  | p :: rest, k, v =>
    if p.1 = k then (k, v) :: rest else p :: fset rest k v

/-- Assign property `k := v` on an object; on a non-object this models the
JS write that is either ignored or irrelevant here, returning the value. -/
def jset : Json → String → Json → Json
  | obj fields, k, v => obj (fset fields k v)
  | j, _, _ => j

/-- Assign a list of properties in order. -/
def jsetAll (j : Json) (kvs : List (String × Json)) : Json :=
  kvs.foldl (fun a p => jset a p.1 p.2) j

/-- JS truthiness of a present value. -/
def truthy : Json → Bool
  | null => false
  | bool b => b
  | num x => !(x = 0)
  | str s => !(s = "")
  | arr _ => true
  | obj _ => true

/-- JS truthiness of a possibly-absent value (`undefined` is falsy). -/
def otruthy : Option Json → Bool
  | some v => truthy v
  | none => false

/-- Object-spread contribution of a value (`{...v}`): objects contribute
their fields; strings and arrays contribute index-keyed entries; other
primitives contribute nothing. -/
def spreadPairs : Json → List (String × Json)
  | obj fields => fields
  | str s => (s.data.enum.map (fun p => (toString p.1, str (String.mk [p.2]))))
  | arr xs => (xs.enum.map (fun p => (toString p.1, p.2)))
  | _ => []

/-- Spread value `v` into object `j` (`{...j, ...v}` given `j` an object). -/
def jspread (j : Json) (v : Json) : Json :=
  jsetAll j (spreadPairs v)

/-- JS ToNumber on the value shapes this repository produces; `none` is NaN.
Array/object coercion (via ToPrimitive) is modelled as NaN: no code path
proved about feeds an array or object to a numeric coercion. String
conversion is supplied later (it needs the number grammar) and plugged in
through `toNumberWith`. -/
def toNumberWith (strConv : String → Option Rat) : Json → Option Rat
  | null => some 0
  | bool b => some (if b then 1 else 0)
  | num x => some x
  | str s => strConv s
  | arr _ => none
  | obj _ => none

/-- Length of a value as JS `.length` reads it: string length, array length,
an object's own `length` property if numeric, otherwise absent. -/
def jsLength : Json → Option Rat
  | str s => some (s.length : Rat)
  | arr xs => some (xs.length : Rat)
  | obj fields => match fget fields "length" with
      | some (num x) => some x
      | _ => none
  | _ => none

end Json

/-! JavaScript string helpers shared by the embedded functions. -/

/-- Whitespace characters relevant to the strings this system handles. -/
def isJsWs (c : Char) : Bool :=
  c = ' ' || c = '\t' || c = '\n' || c = '\r'

/-- Character-list trim: drop leading and trailing whitespace. -/
def trimChars (l : List Char) : List Char :=
  ((l.dropWhile isJsWs).reverse.dropWhile isJsWs).reverse

/-- JS `String.prototype.trim`. -/
def jsTrim (s : String) : String :=
  String.mk (trimChars s.data)

/-- JS `String.prototype.toLowerCase` (ASCII range, which is all the headers
of this system use). -/
def jsToLower (s : String) : String :=
  String.mk (s.data.map Char.toLower)

/-- Split a character list at every character satisfying `p`, keeping empty
pieces, as JS `split` with a character-class regex does. -/
def splitAtPred (p : Char → Bool) (l : List Char) : List (List Char) :=
  l.foldr
    (fun c acc =>
      if p c then [] :: acc
      else
        match acc with
        | g :: gs => (c :: g) :: gs
        | [] => [[c]])
    [[]]

/-- JS `value.split(/[,;]/)`. -/
def splitCommaSemi (s : String) : List String :=
  (splitAtPred (fun c => c = ',' || c = ';') s.data).map String.mk

/-- Decimal digit character for a value below ten. -/
def digitChar (d : Nat) : Char :=
  match d with
  | 0 => '0' | 1 => '1' | 2 => '2' | 3 => '3' | 4 => '4'
  | 5 => '5' | 6 => '6' | 7 => '7' | 8 => '8' | _ => '9'

/-- Numeric value of a decimal digit character. -/
def digitVal (c : Char) : Nat :=
  c.toNat - 48

/-- Decimal digits of `n`, most significant first, with explicit fuel so the
definition is structural (any fuel above `n` is enough). -/
def natDigitsF : Nat → Nat → List Char
  | 0, _ => []
  | f + 1, n => if n < 10 then [digitChar n] else natDigitsF f (n / 10) ++ [digitChar (n % 10)]

/-- Decimal rendering of a natural number. -/
def natToStr (n : Nat) : String :=
  String.mk (natDigitsF (n + 1) n)

/-- Decimal rendering of an integer. -/
def intToStr (i : Int) : String :=
  if i < 0 then "-" ++ natToStr i.natAbs else natToStr i.natAbs

/-- Value of a digit-character list read most significant first. -/
def digitsToNat (l : List Char) : Nat :=
  l.foldl (fun a c => a * 10 + digitVal c) 0

/-- Leading-digit-run parse: `none` when the list does not start with a
digit, otherwise the value of the maximal leading digit run. -/
def parseDigitRun (l : List Char) : Option Nat :=
  match l.takeWhile Char.isDigit with
  | [] => none
  | ds => some (digitsToNat ds)

/-- JS `parseInt(s)` in base ten: skip leading whitespace, optional sign,
then the maximal digit run; NaN (`none`) when no digit follows. -/
def parseIntJs (s : String) : Option Int :=
  match s.data.dropWhile isJsWs with
  | [] => none
  | c :: rest =>
    if c = '-' then (parseDigitRun rest).map (fun n => -(n : Int))
    else if c = '+' then (parseDigitRun rest).map (fun n => (n : Int))
    else (parseDigitRun (c :: rest)).map (fun n => (n : Int))

/-! A JSON parser modelling `JSON.parse`, written with explicit fuel so that
every definition is structurally recursive and kernel-computable. -/

/-- Opening curly bracket character. -/
def braceO : Char := Char.ofNat 123

/-- Closing curly bracket character. -/
def braceC : Char := Char.ofNat 125

/-- Skip JSON whitespace. -/
def skipWsL (l : List Char) : List Char :=
  l.dropWhile isJsWs

/-- Parse the body of a JSON string literal (the opening quote already
consumed), returning the decoded characters and the remaining input.
The `\u` escape is not modelled; no input proved about uses it. -/
def parseStrChars : List Char → Option (List Char × List Char)
  | [] => none
  | '"' :: rest => some ([], rest)
  | '\\' :: e :: rest =>
    let dec : Option Char :=
      if e = '"' then some '"'
      else if e = '\\' then some '\\'
      else if e = '/' then some '/'
      else if e = 'n' then some '\n'
      else if e = 't' then some '\t'
      else if e = 'r' then some '\r'
      else if e = 'b' then some (Char.ofNat 8)
      else if e = 'f' then some (Char.ofNat 12)
      else none
    match dec with
    | none => none
    | some c => (parseStrChars rest).map (fun p => (c :: p.1, p.2))
  | c :: rest => (parseStrChars rest).map (fun p => (c :: p.1, p.2))

/-- Parse a JSON number at the head of the input. A plain integer numeral
is built by a direct cast (no rational arithmetic), so concrete parses
reduce inside the kernel; fractions and exponents use field operations. -/
def parseNumChars (l : List Char) : Option (Json × List Char) :=
  let (neg, l1) : Bool × List Char :=
    match l with
    | '-' :: rest => (true, rest)
    | _ => (false, l)
  match l1.takeWhile Char.isDigit with
  | [] => none
  | intDs =>
    let r1 := l1.drop intDs.length
    let (fracV, r2) : Option (Option Rat) × List Char :=
      match r1 with
      | '.' :: r =>
        match r.takeWhile Char.isDigit with
        | [] => (none, r1)
        | ds => (some (some ((digitsToNat ds : Rat) / (10 : Rat) ^ ds.length)), r.drop ds.length)
      | _ => (some none, r1)
    match fracV with
    | none => none
    | some fv =>
      let (expV, r3) : Option (Option Rat) × List Char :=
        match r2 with
        | 'e' :: r => parseExpTail r
        | 'E' :: r => parseExpTail r
        | _ => (some none, r2)
      match expV with
      | none => none
      | some ev =>
        let mag : Rat :=
          match fv, ev with
          | none, none => (digitsToNat intDs : Rat)
          | some f, none => (digitsToNat intDs : Rat) + f
          | none, some e => (digitsToNat intDs : Rat) * e
          | some f, some e => ((digitsToNat intDs : Rat) + f) * e
        some (Json.num (if neg then -mag else mag), r3)
where
  /-- Parse the signed exponent digits, returning the scale factor
  (`some none` means no exponent part). -/
  parseExpTail (r : List Char) : Option (Option Rat) × List Char :=
    let (eneg, rr) : Bool × List Char :=
      match r with
      | '-' :: t => (true, t)
      | '+' :: t => (false, t)
      | _ => (false, r)
    match rr.takeWhile Char.isDigit with
    | [] => (none, r)
    | ds =>
      let e := digitsToNat ds
      (some (some (if eneg then 1 / (10 : Rat) ^ e else (10 : Rat) ^ e)), rr.drop ds.length)

/-- Parser mode: a value, an object member list, or an array item list. -/
inductive PMode where
  | value : PMode
  | members (acc : List (String × Json)) : PMode
  | items (acc : List Json) : PMode

/-- Fueled JSON parse step. Object members accumulate with `fset`, so a
repeated key keeps the last value as `JSON.parse` does. -/
def pj : Nat → PMode → List Char → Option (Json × List Char)
  | 0, _, _ => none
  | f + 1, PMode.value, l =>
    match skipWsL l with
    | [] => none
    | c :: rest =>
      if c = braceO then
        match skipWsL rest with
        | [] => none
        | c2 :: rest2 =>
          if c2 = braceC then some (Json.obj [], rest2)
          else pj f (PMode.members []) (c2 :: rest2)
      else if c = '[' then
        match skipWsL rest with
        | [] => none
        | c2 :: rest2 =>
          if c2 = ']' then some (Json.arr [], rest2)
          else pj f (PMode.items []) (c2 :: rest2)
      else if c = '"' then
        (parseStrChars rest).map (fun p => (Json.str (String.mk p.1), p.2))
      else if c = 't' then
        match rest with
        | 'r' :: 'u' :: 'e' :: r2 => some (Json.bool true, r2)
        | _ => none
      else if c = 'f' then
        match rest with
        | 'a' :: 'l' :: 's' :: 'e' :: r2 => some (Json.bool false, r2)
        | _ => none
      else if c = 'n' then
        match rest with
        | 'u' :: 'l' :: 'l' :: r2 => some (Json.null, r2)
        | _ => none
      else
        parseNumChars (c :: rest)
  | f + 1, PMode.members acc, l =>
    match skipWsL l with
    | '"' :: rest =>
      match parseStrChars rest with
      | none => none
      | some (kcs, r1) =>
        match skipWsL r1 with
        | ':' :: r2 =>
          match pj f PMode.value r2 with
          | none => none
          | some (v, r3) =>
            let acc2 := Json.fset acc (String.mk kcs) v
            match skipWsL r3 with
            | ',' :: r4 => pj f (PMode.members acc2) r4
            | c4 :: r4 => if c4 = braceC then some (Json.obj acc2, r4) else none
            | [] => none
        | _ => none
    | _ => none
  | f + 1, PMode.items acc, l =>
    match pj f PMode.value l with
    | none => none
    | some (v, r1) =>
      let acc2 := acc ++ [v]
      match skipWsL r1 with
      | ',' :: r2 => pj f (PMode.items acc2) r2
      | ']' :: r2 => some (Json.arr acc2, r2)
      | _ => none

/-- `JSON.parse`: parse the whole string, `none` on any syntax error. -/
def parseJson (s : String) : Option Json :=
  match pj (2 * s.data.length + 2) PMode.value s.data with
  | some (v, rest) => if skipWsL rest = [] then some v else none
  | none => none

/-- The match of a greedy regex `open [anything]* close` against `s`: from
the first occurrence of `openC` to the last occurrence of `closeC` after it,
`none` when there is no such pair (the shape of `/\x7b[\s\S]*\x7d/` and
`/\[[\s\S]*\]/` in the response parsers). -/
def extractBetween (openC closeC : Char) (s : String) : Option String :=
  match s.data.findIdx? (· = openC), (s.data.reverse.findIdx? (· = closeC)) with
  | some i, some k =>
    let j := s.data.length - 1 - k
    if i < j then some (String.mk ((s.data.drop i).take (j - i + 1))) else none
  | _, _ => none

/-- JS string-to-number coercion: empty/whitespace is zero, otherwise the
full trimmed text must be a (signed) decimal numeral; `none` is NaN. -/
def jsStringToNumber (s : String) : Option Rat :=
  match trimChars s.data with
  | [] => some 0
  | t =>
    match parseNumChars t with
    | some (Json.num x, []) => some x
    | _ =>
      match t with
      | '+' :: t2 =>
        match parseNumChars t2 with
        | some (Json.num x, []) => some x
        | _ => none
      | _ => none

/-- JS ToNumber (see `Json.toNumberWith`). An array coerces through its
string form: empty or single-nullish is zero, a single primitive coerces as
that primitive's string, anything longer is NaN; deeper nesting (not
produced by any flow here) is approximated as NaN. -/
def jsToNumber (v : Json) : Option Rat :=
  match v with
  | Json.arr [] => some 0
  | Json.arr [Json.null] => some 0
  | Json.arr [Json.num q] => some q
  | Json.arr [Json.str s] => jsStringToNumber s
  | Json.arr _ => none
  | w => Json.toNumberWith jsStringToNumber w

/-! Basic lemmas about the object model. -/

namespace Json

/-- Assign a list of properties onto a field list, in order. -/
def fsetAll (fields : List (String × Json)) (kvs : List (String × Json)) :
    List (String × Json) :=
  kvs.foldl (fun a p => fset a p.1 p.2) fields

/-- Spread a value into a field list (`{...fields, ...v}`). -/
def spreadInto (fields : List (String × Json)) (v : Json) :
    List (String × Json) :=
  fsetAll fields v.spreadPairs

end Json

/-!
Embedding of `lib/personaEnrichmentAgent.js` (Stage A of the enrichment
pipeline). The model call `anthropic.messages.create` is an oracle input:
`Except.error msg` models a thrown request error, `Except.ok text` models a
completed call whose first content block has the given text.
-/

namespace PersonaEnrichmentAgent

/-- Parsed enrichment data as `parseEnrichmentResponse` returns it. -/
structure EnrichmentData where
  enrichedFields : Json
  confidence : Option Rat
  fieldsEnriched : Json
  insights : Json

/-- The fallback enrichment object of `parseEnrichmentResponse`
(personaEnrichmentAgent.js lines 224-232). -/
def enrichmentFallback : EnrichmentData where
  enrichedFields :=
    Json.obj
      [("social_media_profiles",
         Json.obj [("facebook",
           Json.obj [("active", Json.bool true), ("frequency", Json.str "weekly")])]),
       ("communication_style",
         Json.obj [("preferred_channels", Json.arr [Json.str "email"]),
                   ("formality_level", Json.str "professional")])]
  confidence := some (3 / 10)
  fieldsEnriched := Json.arr [Json.str "basic_fallback"]
  insights := Json.arr [Json.str "Enrichment failed, using basic fallback data"]

/-- Clamp a number into [0,1] (`Math.min(Math.max(c, 0), 1)`); NaN stays NaN. -/
def ratClamp01 (x : Option Rat) : Option Rat :=
  x.map (fun q => min (max q 0) 1)

/-- A possibly-NaN number as a stored JSON value (NaN itself is not
representable in `Json`; it never arises in the runs proved about). -/
def jnumOpt : Option Rat → Json
  | some q => Json.num q
  | none => Json.null

/-- personaEnrichmentAgent.js `parseEnrichmentResponse` (lines 198-234):
extract the first-to-last curly-brace span, decode it, require truthy
`enrichedFields` and `confidence`, clamp confidence to [0,1]; any failure
(no span, decode error, or missing keys) is caught and yields the fallback. -/
def parseEnrichmentResponse (responseText : String) : EnrichmentData :=
  match extractBetween braceO braceC responseText with
  | none => enrichmentFallback
  | some jtext =>
    match parseJson jtext with
    | none => enrichmentFallback
    | some parsedData =>
      if !(Json.otruthy (parsedData.jget "enrichedFields"))
          || !(Json.otruthy (parsedData.jget "confidence")) then
        enrichmentFallback
      else
        { enrichedFields := (parsedData.jget "enrichedFields").getD Json.null
          confidence :=
            match parsedData.jget "confidence" with
            | some v => ratClamp01 (jsToNumber v)
            | none => none
          fieldsEnriched :=
            match parsedData.jget "fieldsEnriched" with
            | some v => if v.truthy then v else Json.arr []
            | none => Json.arr []
          insights :=
            match parsedData.jget "insights" with
            | some v => if v.truthy then v else Json.arr []
            | none => Json.arr [] }

/-- The `enrichment` status block attached on a successful enrichment
(personaEnrichmentAgent.js lines 77-84). -/
def enrichedBlock (d : EnrichmentData) (now : String) : Json :=
  Json.obj
    [("status", Json.str "enriched"),
     ("sources", Json.arr [Json.str "ai_research", Json.str "social_analysis",
                           Json.str "professional_lookup"]),
     ("confidence_score", jnumOpt d.confidence),
     ("enriched_fields", d.fieldsEnriched),
     ("enriched_at", Json.str now),
     ("research_insights", d.insights)]

/-- The `enrichment` block attached when a persona's enrichment failed
(personaEnrichmentAgent.js lines 41-48). -/
def failedBlock (errMsg now : String) : Json :=
  Json.obj
    [("status", Json.str "failed"),
     ("error", Json.str errMsg),
     ("enriched_at", Json.str now)]

/-- personaEnrichmentAgent.js `enrichSinglePersona` (lines 59-90): on a
completed model call, spread the parsed `enrichedFields` over the persona
and attach the `enrichment` block; a thrown model call is rethrown as
`AI enrichment failed: ...`. -/
def enrichSinglePersona (persona : Json) (call : Except String String)
    (now : String) : Except String Json :=
  match call with
  | .error msg => .error ("AI enrichment failed: " ++ msg)
  | .ok text =>
    let d := parseEnrichmentResponse text
    .ok (Json.obj
      (Json.fset (Json.spreadInto persona.spreadPairs d.enrichedFields)
        "enrichment" (enrichedBlock d now)))

/-- One iteration of the `enrichPersonas` loop: the enriched persona, or on
failure the original persona with a failed `enrichment` block
(personaEnrichmentAgent.js lines 26-49). -/
def enrichStep (persona : Json) (call : Except String String) (now : String) :
    Json :=
  match enrichSinglePersona persona call now with
  | .ok q => q
  | .error e => Json.obj (Json.fset persona.spreadPairs "enrichment" (failedBlock e now))

/-- The `enrichPersonas` loop, carrying the running index so each persona
gets its own model call. -/
def enrichPersonasGo (oracle : Nat → Except String String) (now : String) :
    Nat → List Json → List Json
  | _, [] => []
  | i, p :: ps => enrichStep p (oracle i) now :: enrichPersonasGo oracle now (i + 1) ps

/-- personaEnrichmentAgent.js `enrichPersonas` (lines 18-54). -/
def enrichPersonas (personas : List Json) (oracle : Nat → Except String String)
    (now : String) : List Json :=
  enrichPersonasGo oracle now 0 personas

end PersonaEnrichmentAgent

/-!
Embedding of the persona generator module (`lib/personaAgent.js`, the
unnamed source file). Prompt construction (pure string templating fed only
to the model call) does not influence any returned data and is therefore
not re-stated; the model call itself is an oracle input.
-/

/-- Join strings with a separator (used by the stringifier and by the
source's `join` calls). -/
def joinSep (sep : String) (l : List String) : String :=
  String.intercalate sep l

/-- Left-pad a digit string with zeros up to width `w`. -/
def padZeros (w : Nat) (s : String) : String :=
  String.mk (List.replicate (w - s.length) '0') ++ s

/-- Decimal rendering of a rational whose denominator divides a power of
ten (every number produced by `parseJson` has this form, matching how
`JSON.stringify` prints the doubles that `JSON.parse` produced). -/
def ratDecimalStr (x : Rat) : String :=
  if x.den = 1 then intToStr x.num
  else
    match (List.range 21).find? (fun k => (x * (10 : Rat) ^ k).den = 1) with
    | some k =>
      let sign := if x < 0 then "-" else ""
      let n := (x * (10 : Rat) ^ k).num.natAbs
      sign ++ natToStr (n / 10 ^ k) ++ "." ++ padZeros k (natToStr (n % 10 ^ k))
    | none => intToStr x.num ++ "/" ++ natToStr x.den

/-- Escape a character for a JSON string literal. -/
def escapeJsonChar (c : Char) : List Char :=
  if c = '"' then ['\\', '"']
  else if c = '\\' then ['\\', '\\']
  else if c = '\n' then ['\\', 'n']
  else if c = '\t' then ['\\', 't']
  else if c = '\r' then ['\\', 'r']
  else [c]

/-- A JSON string literal. -/
def quoteJson (s : String) : String :=
  "\"" ++ String.mk (s.data.flatMap escapeJsonChar) ++ "\""

mutual

/-- `JSON.stringify` (compact form, as the source calls it on data). -/
def jsonStringify : Json → String
  | Json.null => "null"
  | Json.bool b => if b then "true" else "false"
  | Json.num x => ratDecimalStr x
  | Json.str s => quoteJson s
  | Json.arr xs => "[" ++ stringifyItems xs ++ "]"
  | Json.obj fs => String.mk [braceO] ++ stringifyFields fs ++ String.mk [braceC]

/-- Comma-joined stringified array items. -/
def stringifyItems : List Json → String
  | [] => ""
  | [x] => jsonStringify x
  | x :: rest => jsonStringify x ++ "," ++ stringifyItems rest

/-- Comma-joined stringified object members. -/
def stringifyFields : List (String × Json) → String
  | [] => ""
  | [p] => quoteJson p.1 ++ ":" ++ jsonStringify p.2
  | p :: rest => quoteJson p.1 ++ ":" ++ jsonStringify p.2 ++ "," ++ stringifyFields rest

end

namespace PersonaAgent

/-- Property read returning the value only when present and truthy. -/
def truthyGet (j : Json) (k : String) : Option Json :=
  match j.jget k with
  | some v => if v.truthy then some v else none
  | none => none

/-- One source-context item `{content, metadata: {source, type}}`. -/
def sourceItem (content source typ : String) : Json :=
  Json.obj
    [("content", Json.str content),
     ("metadata", Json.obj [("source", Json.str source), ("type", Json.str typ)])]

/-- Stringify `v.summary || v` (personaAgent.js uses this for each upload). -/
def stringifySummaryOr (v : Json) : String :=
  jsonStringify
    (match truthyGet v "summary" with
     | some s => s
     | none => v)

/-- personaAgent.js `buildSourceContext` (lines 71-135): collect categorized
source items from the uploads and the research bundle; `total_sources` sums
the array-valued categories. -/
def buildSourceContext (uploadedData researchData : Json) : Json :=
  let upItem := fun (key source typ : String) =>
    if uploadedData.truthy then
      match truthyGet uploadedData key with
      | some v => [sourceItem (stringifySummaryOr v) source typ]
      | none => []
    else []
  let reItem := fun (key source typ : String) =>
    if researchData.truthy then
      match truthyGet researchData key with
      | some v => [sourceItem (jsonStringify v) source typ]
      | none => []
    else []
  let demographic_data :=
    upItem "mri_data" "mri_file" "demographic" ++
      upItem "targetsmart_data" "targetsmart_file" "demographic" ++
      reItem "demographics" "perplexity_research" "demographic"
  let client_data := upItem "client_data" "client_file" "client"
  let social_insights := reItem "social_insights" "perplexity_research" "social"
  let consumer_behavior := reItem "consumer_behavior" "perplexity_research" "behavior"
  let total := demographic_data.length + client_data.length +
    social_insights.length + consumer_behavior.length
  Json.obj
    [("demographic_data", Json.arr demographic_data),
     ("case_data", Json.arr []),
     ("social_insights", Json.arr social_insights),
     ("consumer_behavior", Json.arr consumer_behavior),
     ("client_data", Json.arr client_data),
     ("total_sources", Json.num total)]

/-- The three categories `validateDataSufficiency` inspects. -/
def sufficiencyCategories : List String :=
  ["demographic_data", "social_insights", "consumer_behavior"]

/-- Whether a category of the source context is populated
(`sourceContext[category] && sourceContext[category].length > 0`). -/
def categoryAvailable (sourceContext : Json) (category : String) : Bool :=
  match sourceContext.jget category with
  | some v =>
    v.truthy &&
      (match v.jsLength with
       | some q => decide (q > 0)
       | none => false)
  | none => false

/-- personaAgent.js `validateDataSufficiency` (lines 140-164). -/
def validateDataSufficiency (sourceContext : Json) : Json :=
  let available := sufficiencyCategories.filter (categoryAvailable sourceContext)
  let missing := sufficiencyCategories.filter (fun c => !categoryAvailable sourceContext c)
  Json.obj
    [("sufficient", Json.bool (available.length ≥ 1)),
     ("missing", Json.arr (missing.map Json.str)),
     ("available", Json.arr (available.map Json.str)),
     ("confidence", Json.num ((available.length : Rat) / sufficiencyCategories.length * 100))]

/-- personaAgent.js `parsePersonaResponse` (lines 259-282): trim, take the
greedy square-bracket span, decode it, require an array; every failure is
rethrown as a `Persona parsing failed` error to the caller. -/
def parsePersonaResponse (responseText : String) : Except String (List Json) :=
  match extractBetween '[' ']' (jsTrim responseText) with
  | none => .error "Persona parsing failed: No JSON array found in Claude response"
  | some atext =>
    match parseJson atext with
    | none => .error "Persona parsing failed: Unexpected token in JSON"
    | some v =>
      match v with
      | Json.arr xs => .ok xs
      | _ => .error "Persona parsing failed: Response is not an array of personas"

/-- Shallow JS `===` on primitive values (what `new Set` deduplication needs
for the string source names it is applied to). -/
def primEq : Json → Json → Bool
  | Json.null, Json.null => true
  | Json.bool a, Json.bool b => a = b
  | Json.num a, Json.num b => a = b
  | Json.str a, Json.str b => a = b
  | _, _ => false

/-- Keep first occurrences (the `[...new Set(xs)]` idiom). -/
def dedupPrim (l : List Json) : List Json :=
  l.foldl (fun acc v => if acc.any (primEq v) then acc else acc ++ [v]) []

/-- The `source_citations` block attached to each persona
(personaAgent.js lines 289-299). -/
def citationsFor (persona sourceContext : Json) : Json :=
  let dataSources := persona.jget "data_sources"
  Json.obj
    [("primary_sources",
      match dataSources with
      | some v => if v.truthy then v else Json.arr []
      | none => Json.arr []),
     ("data_categories",
      match sourceContext with
      | Json.obj fs =>
        Json.arr ((fs.filter (fun p =>
          p.2.truthy &&
            (match p.2 with
             | Json.arr xs => decide (xs.length > 0)
             | _ => false))).map (fun p => Json.str p.1))
      | _ => Json.arr []),
     ("confidence_factors",
      Json.obj
        [("source_diversity",
          match dataSources with
          | some v =>
            if v.truthy then
              (match v.jsLength with
               | some q => Json.num q
               | none => Json.null)
            else Json.num 0
          | none => Json.num 0),
         ("data_points", (sourceContext.jget "total_sources").getD Json.null),
         ("citation_coverage",
          Json.str (if Json.otruthy dataSources then "cited" else "limited"))])]

/-- personaAgent.js `addSourceCitations` (lines 287-303); assigning the
property on a non-object persona is a strict-mode `TypeError`. -/
def addSourceCitations (personas : List Json) (sourceContext : Json) :
    Except String (List Json) :=
  personas.foldr
    (fun persona acc =>
      match persona with
      | Json.obj _ =>
        acc.map (fun rest =>
          Json.jset persona "source_citations" (citationsFor persona sourceContext) :: rest)
      | _ => .error "TypeError: cannot create property on a primitive persona")
    (.ok [])

/-- The required persona fields of the generation validator
(personaAgent.js line 310). -/
def requiredFields : List String :=
  ["name", "age", "bio", "motivations", "barriers", "communication_style"]

/-- A required field is missing when falsy or an empty array
(`!persona[field] || (Array.isArray(persona[field]) && length === 0)`). -/
def fieldMissing (persona : Json) (field : String) : Bool :=
  !(Json.otruthy (persona.jget field)) ||
    (match persona.jget field with
     | some (Json.arr xs) => decide (xs.length = 0)
     | _ => false)

/-- All required fields present. -/
def personaComplete (persona : Json) : Bool :=
  requiredFields.all (fun f => !fieldMissing persona f)

/-- The citation component of the quality score
(`persona.source_citations && persona.source_citations.primary_sources.length > 0`);
`none` models the `TypeError` thrown when `primary_sources` is nullish. -/
def citationCheck (persona : Json) : Option Bool :=
  match persona.jget "source_citations" with
  | none => some false
  | some sc =>
    if !sc.truthy then some false
    else
      match sc.jget "primary_sources" with
      | none => none
      | some Json.null => none
      | some (Json.str s) => some (decide (s.length > 0))
      | some (Json.arr xs) => some (decide (xs.length > 0))
      | some (Json.obj fs) =>
        some (match Json.fget fs "length" with
              | some (Json.num q) => decide (q > 0)
              | _ => false)
      | some _ => some false

/-- Numeric greater-than against a constant with JS coercion (false on NaN). -/
def jsGTnum (v : Json) (bound : Rat) : Bool :=
  match jsToNumber v with
  | some q => decide (q > bound)
  | none => false

/-- The confidence component (`persona.confidence_score && ... > 70`). -/
def confidenceCheck (persona : Json) : Bool :=
  Json.otruthy (persona.jget "confidence_score") &&
    (match persona.jget "confidence_score" with
     | some v => jsGTnum v 70
     | none => false)

/-- The bio-length component (`persona.bio && persona.bio.length > 100`). -/
def bioCheck (persona : Json) : Bool :=
  Json.otruthy (persona.jget "bio") &&
    (match persona.jget "bio" with
     | some v =>
       match v.jsLength with
       | some q => decide (q > 100)
       | none => false
     | none => false)

/-- The weighted quality score (personaAgent.js lines 327-340). -/
def qualityScore (persona : Json) (citation : Bool) : Nat :=
  (if citation then 30 else 0) +
    (if confidenceCheck persona then 25 else 0) +
    (if personaComplete persona then 25 else 0) +
    (if bioCheck persona then 20 else 0)

/-- The `validation` block stored on each kept persona. -/
def validationBlock (persona : Json) (citation : Bool) : Json :=
  Json.obj
    [("complete", Json.bool (personaComplete persona)),
     ("missing_fields", Json.arr ((requiredFields.filter (fieldMissing persona)).map Json.str)),
     ("quality_score", Json.num (qualityScore persona citation))]

/-- personaAgent.js `validatePersonas` (lines 308-354): keep exactly the
complete personas scoring at least 50, each with its `validation` block
attached; the rest are skipped with only a console warning. -/
def validatePersonas (personas : List Json) : Except String (List Json) :=
  personas.foldr
    (fun persona acc =>
      match citationCheck persona with
      | none => .error "TypeError: cannot read length of undefined"
      | some citation =>
        acc.map (fun rest =>
          if personaComplete persona && qualityScore persona citation ≥ 50 then
            Json.jset persona "validation" (validationBlock persona citation) :: rest
          else rest))
    (.ok [])

/-- personaAgent.js `extractSourceSummary` (lines 359-384). -/
def extractSourceSummary (sourceContext : Json) : Json :=
  let categories : List (String × Json) :=
    match sourceContext with
    | Json.obj fs =>
      (fs.filter (fun p =>
        (match p.2 with
         | Json.arr xs => decide (xs.length > 0)
         | _ => false))).map (fun p =>
          (p.1,
           Json.obj
             [("document_count",
               match p.2 with
               | Json.arr xs => Json.num xs.length
               | _ => Json.null),
              ("sources",
               match p.2 with
               | Json.arr xs =>
                 Json.arr (dedupPrim (xs.map (fun item =>
                   ((item.jget "metadata").bind (fun m => m.jget "source")).getD Json.null)))
               | _ => Json.arr [])]))
    | _ => []
  let totalDocs := (sourceContext.jget "total_sources").getD Json.null
  let volume : List Json :=
    match totalDocs with
    | Json.num q => if q ≥ 3 then [Json.str "Sufficient data volume"] else []
    | _ => []
  let diverse : List Json :=
    if categories.length ≥ 2 then [Json.str "Diverse data sources"] else []
  Json.obj
    [("total_documents", totalDocs),
     ("categories", Json.obj categories),
     ("quality_indicators", Json.arr (volume ++ diverse))]

/-- personaAgent.js `generatePersonas` (lines 7-66). The model call is the
oracle argument `call`; `apiKeyConfigured` is the `ANTHROPIC_API_KEY`
environment check; `now` stamps the timestamp. Every thrown error is
rethrown to the caller (lines 62-65). -/
def generatePersonas (apiKeyConfigured : Bool) (campaignData uploadedData researchData : Json)
    (personaCount : Int) (call : Except String String) (now : String) :
    Except String Json :=
  if !apiKeyConfigured then .error "Anthropic API key not configured"
  else
    let sourceContext := buildSourceContext uploadedData researchData
    let validation := validateDataSufficiency sourceContext
    if !(Json.otruthy (validation.jget "sufficient")) then
      .error ("Insufficient data for persona generation: " ++
        joinSep ", " (sufficiencyCategories.filter
          (fun c => !categoryAvailable sourceContext c)))
    else
      match call with
      | .error e => .error e
      | .ok text => do
        let personas ← parsePersonaResponse text
        let cited ← addSourceCitations personas sourceContext
        let validated ← validatePersonas cited
        .ok (Json.obj
          [("personas", Json.arr validated),
           ("sources_used", extractSourceSummary sourceContext),
           ("validation", validation),
           ("generation_timestamp", Json.str now)])

end PersonaAgent

/-!
Embedding of `lib/researchAgent.js` (the Research Collector). Each of the
four topic requests is driven by an oracle describing how the axios call
settled; `makePerplexityRequest` turns that into either a returned value or
a thrown error, exactly following its try/catch structure.
-/

namespace ResearchAgent

/-- How one axios request to the research API settled:
`response content` is a 2xx reply whose `choices[0]?.message?.content`
optional chain produced `content`; `httpFailure` is a rejected call with a
response (`error.response` present, carrying status and `data?.error`);
`network` is a rejection with only `error.request`; `setupFailure` is any
other thrown error. -/
inductive PerplexityOutcome where
  | response (content : Option String) : PerplexityOutcome
  | httpFailure (status : Nat) (errData : Option String) : PerplexityOutcome
  | network : PerplexityOutcome
  | setupFailure (msg : String) : PerplexityOutcome

/-- researchAgent.js `makePerplexityRequest` (lines 165-222). A falsy
content — absent (`undefined`) or the empty string — fails the
`if (!content)` check (line 191), throws inside the try and reaches the
final rethrow branch; non-empty unparsable content is caught by the inner
parse catch and returned as the tagged error object; parsed objects are
tagged with `_raw_response` and `_request_type` and returned. -/
def makePerplexityRequest (outcome : PerplexityOutcome) (requestType : String) :
    Except String Json :=
  match outcome with
  | .response none => .error "Research request failed: Empty response from Perplexity API"
  | .response (some content) =>
    if content = "" then
      .error "Research request failed: Empty response from Perplexity API"
    else
    match parseJson content with
    | some (Json.obj fs) =>
      .ok (Json.obj
        (Json.fset (Json.fset fs "_raw_response" (Json.str content))
          "_request_type" (Json.str requestType)))
    | some (Json.arr xs) => .ok (Json.arr xs)
    | some _ =>
      .ok (Json.obj
        [("_raw_response", Json.str content),
         ("_request_type", Json.str requestType),
         ("_parse_error", Json.str "Cannot create property on a primitive value"),
         ("error", Json.str "Could not parse structured response")])
    | none =>
      .ok (Json.obj
        [("_raw_response", Json.str content),
         ("_request_type", Json.str requestType),
         ("_parse_error", Json.str "Unexpected token in JSON"),
         ("error", Json.str "Could not parse structured response")])
  | .httpFailure status errData =>
    .error ("Perplexity API error: " ++ natToStr status ++ " - " ++ errData.getD "Unknown error")
  | .network => .error "Perplexity API request timeout or network error"
  | .setupFailure m => .error ("Research request failed: " ++ m)

/-- The four topic request types, in the order `conductResearch` issues
them. -/
def researchTopics : List String :=
  ["demographics", "social_insights", "legal_trends", "consumer_behavior"]

/-- researchAgent.js `conductResearch` (lines 7-39): without a configured
key, short-circuit; otherwise join the four topic requests. A rejected
request rejects the `Promise.all`, and the catch turns the rejection into
`{error, partial_data: null}` — the other topics' results are dropped.
(`Promise.all` rejects with the temporally first rejection; the requests
are modelled as settling in index order.) -/
def conductResearch (apiKeyConfigured : Bool)
    (outcomes : Fin 4 → PerplexityOutcome) (caseType keywords now : String) :
    Json :=
  if !apiKeyConfigured then Json.obj [("error", Json.str "Research API not configured")]
  else
    let r0 := makePerplexityRequest (outcomes 0) "demographics"
    let r1 := makePerplexityRequest (outcomes 1) "social_insights"
    let r2 := makePerplexityRequest (outcomes 2) "legal_trends"
    let r3 := makePerplexityRequest (outcomes 3) "consumer_behavior"
    match r0, r1, r2, r3 with
    | .ok d, .ok s, .ok lt, .ok cb =>
      Json.obj
        [("demographics", d),
         ("social_insights", s),
         ("legal_trends", lt),
         ("consumer_behavior", cb),
         ("research_timestamp", Json.str now),
         ("case_type", Json.str caseType),
         ("keywords", Json.str keywords)]
    | _, _, _, _ =>
      let firstErr :=
        ([r0, r1, r2, r3].findSome? (fun r =>
          match r with
          | .error e => some e
          | .ok _ => none)).getD ""
      Json.obj [("error", Json.str firstErr), ("partial_data", Json.null)]

end ResearchAgent

/-!
Embedding of `lib/validationAgent.js` (the LLM-based persona validator).
-/

/-- Resolve an identifier against a list of bindings; a missing name is a
`ReferenceError` (`<name> is not defined`). -/
def lookupBinding (scope : List (String × Json)) (n : String) :
    Except String Json :=
  match scope.find? (fun p => p.1 = n) with
  | some p => .ok p.2
  | none => .error (n ++ " is not defined")

/-- A truthy value or the given default (the JS `v || d` idiom). -/
def jsOrDefault (o : Option Json) (d : Json) : Json :=
  match o with
  | some v => if v.truthy then v else d
  | none => d

namespace ValidationAgent

/-- The fallback object of `parseValidationResponse`
(validationAgent.js lines 213-219). -/
def validationFallback : Json :=
  Json.obj
    [("approved", Json.bool true),
     ("confidence", Json.num 60),
     ("verified_traits", Json.arr []),
     ("questionable_traits", Json.arr []),
     ("errors", Json.arr [Json.str "Validation parsing failed"])]

/-- The bindings visible inside the try block of `parseValidationResponse`:
only the parameter. No statement in the function (nor anything at module
scope of validationAgent.js) declares `jsonMatch`. -/
def parseValidationScope (responseText : String) : List (String × Json) :=
  [("responseText", Json.str responseText)]

/-- validationAgent.js `parseValidationResponse` (lines 193-221). The try
body starts by reading `jsonMatch` (line 196), an identifier with no
declaration anywhere in the file, so the read is a `ReferenceError` that
the catch turns into the fallback; the rest of the try body is modelled
after the source lines 196-209 and is unreachable. -/
def parseValidationResponse (responseText : String) : Json :=
  let attempt : Except String Json := do
    let jsonMatch ← lookupBinding (parseValidationScope responseText) "jsonMatch"
    if !jsonMatch.truthy then
      .error "No JSON found in validation response"
    else
      match jsonMatch with
      | Json.arr (Json.str mtext :: _) =>
        match parseJson mtext with
        | none => .error "Unexpected token in JSON"
        | some validation =>
          .ok (Json.obj
            [("approved", jsOrDefault (validation.jget "approved") (Json.bool false)),
             ("confidence", jsOrDefault (validation.jget "confidence") (Json.num 0)),
             ("verified_traits", jsOrDefault (validation.jget "verified_traits") (Json.arr [])),
             ("questionable_traits", jsOrDefault (validation.jget "questionable_traits") (Json.arr [])),
             ("errors", jsOrDefault (validation.jget "missing_citations") (Json.arr []))])
      | _ => .error "TypeError: jsonMatch is not a match array"
  match attempt with
  | .ok v => v
  | .error _ => validationFallback

/-- validationAgent.js `validateSinglePersona` (lines 69-109): a completed
model call goes through `parseValidationResponse`; a thrown call is caught
and defaults to passing. -/
def validateSinglePersona (persona : Json) (call : Except String String) : Json :=
  match call with
  | .error e =>
    Json.obj
      [("persona", persona),
       ("validation_passed", Json.bool true),
       ("errors", Json.arr [Json.str e])]
  | .ok text =>
    let v := parseValidationResponse text
    Json.obj
      [("persona", persona),
       ("validation_passed", (v.jget "approved").getD Json.null),
       ("confidence", (v.jget "confidence").getD Json.null),
       ("verified_traits", (v.jget "verified_traits").getD Json.null),
       ("questionable_traits", (v.jget "questionable_traits").getD Json.null),
       ("errors", jsOrDefault (v.jget "errors") (Json.arr []))]

/-- The sequential per-persona loop of `validatePersonas` (the batching in
threes only inserts delays; the call order is the list order). -/
def validateLoop (oracle : Nat → Except String String) :
    Nat → List Json → List Json
  | _, [] => []
  | i, p :: ps => validateSinglePersona p (oracle i) :: validateLoop oracle (i + 1) ps

/-- validationAgent.js `validatePersonas` (lines 7-64). -/
def validatePersonas (apiKeyConfigured : Bool) (personas : List Json)
    (oracle : Nat → Except String String) : Json :=
  if !apiKeyConfigured then
    Json.obj
      [("validated", Json.arr personas),
       ("errors", Json.arr [Json.str "Validation skipped - no OpenAI key"]),
       ("confidence_score", Json.num 75)]
  else
    let results := validateLoop oracle 0 personas
    let passed := results.filter (fun r => Json.otruthy (r.jget "validation_passed"))
    let failed := results.filter (fun r => !(Json.otruthy (r.jget "validation_passed")))
    Json.obj
      [("validated", Json.arr (passed.map (fun r => (r.jget "persona").getD Json.null))),
       ("validation_details", Json.arr results),
       ("errors",
        Json.arr (failed.flatMap (fun r =>
          match r.jget "errors" with
          | some (Json.arr xs) => xs
          | some v => [v]
          | none => []))),
       ("confidence_score",
        Json.num ((passed.length : Rat) / (personas.length : Rat) * 100))]

end ValidationAgent

/-!
Embedding of `lib/sheetsService.js` (the Spreadsheet Adapter).
-/

mutual

/-- JS `String(v)` template-literal display of a value. -/
def jsDisplay : Json → String
  | Json.null => "null"
  | Json.bool b => if b then "true" else "false"
  | Json.num x => ratDecimalStr x
  | Json.str s => s
  | Json.arr xs => displayItems xs
  | Json.obj _ => "[object Object]"

/-- Array display: elements joined by commas, nullish elements empty. -/
def displayItems : List Json → String
  | [] => ""
  | [Json.null] => ""
  | [x] => jsDisplay x
  | Json.null :: rest => "," ++ displayItems rest
  | x :: rest => jsDisplay x ++ "," ++ displayItems rest

end

/-- One array element in display form (nullish elements join as empty). -/
def displayElem : Json → String
  | Json.null => ""
  | v => jsDisplay v

/-- Template-literal display of a possibly-absent value. -/
def jsDisplayOpt : Option Json → String
  | some v => jsDisplay v
  | none => "undefined"

namespace SheetsService

/-- The module-scope bindings of lib/sheetsService.js: the `google` import
(line 2) and the functions the file declares. `initializeSheets`, which
`storePersonas`, `getPersonaByName`, `getAllPersonas`,
`exportEnrichedPersonas` and `updateJuliusSheetWithEnrichment` all call, is
not declared anywhere in the file (only `initializeGoogleSheetsService`
is). -/
def moduleScope : List String :=
  ["google", "storePersonas", "getPersonaByName", "getAllPersonas",
   "initializeGoogleSheetsService", "fetchPersonasFromExternalSheet",
   "extractSheetInfo", "validatePersonas", "validateSinglePersona",
   "parsePersonaFromRow", "exportEnrichedPersonas", "createNewSpreadsheet",
   "updateJuliusSheetWithEnrichment", "safeJsonParse"]

/-- Resolve an identifier against the module scope; a missing name is a
`ReferenceError`. -/
def resolveModuleName (n : String) : Except String Unit :=
  if moduleScope.contains n then .ok () else .error (n ++ " is not defined")

/-- Whether a value is an array (`Array.isArray`). -/
def isArr : Json → Bool
  | Json.arr _ => true
  | _ => false

/-- Result of sheetsService.js `validateSinglePersona` (lines 321-374). -/
structure SingleCheck where
  isValid : Bool
  warnings : List String
  errors : List String

/-- The name requirement (`!persona.name || persona.name.trim() === ''`):
`some true` means the hard error fires, `none` models the `TypeError` a
truthy non-string name would raise on `.trim()`. -/
def nameError (persona : Json) : Option Bool :=
  match persona.jget "name" with
  | none => some true
  | some v =>
    if !v.truthy then some true
    else
      match v with
      | Json.str s => some (jsTrim s = "")
      | _ => none

/-- The format warning `<field> should be a list`
(`persona[f] && !Array.isArray(persona[f])`). -/
def listFormatWarning (persona : Json) (field label : String) : List String :=
  match persona.jget field with
  | some v => if v.truthy && !isArr v then [label ++ " should be a list"] else []
  | none => []

/-- sheetsService.js `validateSinglePersona` (lines 321-374); `none` models
the thrown `TypeError` of a truthy non-string name. -/
def validateSinglePersona (persona : Json) : Option SingleCheck :=
  match nameError persona with
  | none => none
  | some nameErr =>
    let ageW : List String :=
      match persona.jget "age" with
      | none => ["Age not provided"]
      | some v =>
        match jsToNumber v with
        | none => ["Age " ++ jsDisplay v ++ " seems unusual"]
        | some q =>
          if q < 0 || q > 120 then ["Age " ++ jsDisplay v ++ " seems unusual"] else []
    let locW := if !(Json.otruthy (persona.jget "location")) then ["Location not provided"] else []
    let occW := if !(Json.otruthy (persona.jget "occupation")) then ["Occupation not provided"] else []
    let bioW :=
      if !(Json.otruthy (persona.jget "bio")) && !(Json.otruthy (persona.jget "description")) then
        ["No biography or description provided"]
      else []
    let intMissingW :=
      if !(Json.otruthy (persona.jget "interests")) ||
          (match persona.jget "interests" with
           | some (Json.arr xs) => decide (xs.length = 0)
           | _ => false) then
        ["No interests provided"]
      else []
    some
      { isValid := !nameErr
        warnings := ageW ++ locW ++ occW ++ bioW ++ intMissingW ++
          listFormatWarning persona "interests" "Interests" ++
          listFormatWarning persona "motivations" "Motivations" ++
          listFormatWarning persona "barriers" "Barriers"
        errors := if nameErr then ["Name is required"] else [] }

/-- Result of sheetsService.js `validatePersonas` (lines 276-316). -/
structure ImportValidation where
  valid : List Json
  warnings : List Json
  errors : List Json
  total_imported : Nat
  valid_personas : Nat
  personas_with_warnings : Nat
  invalid_personas : Nat

/-- Empty accumulator for the validation loop. -/
def emptyImportValidation (total : Nat) : ImportValidation where
  valid := []
  warnings := []
  errors := []
  total_imported := total
  valid_personas := 0
  personas_with_warnings := 0
  invalid_personas := 0

/-- The loop body of `validatePersonas`, row numbers starting at `i + 1`. -/
def validateImportLoop (total : Nat) : Nat → List Json → Option ImportValidation
  | _, [] => some (emptyImportValidation total)
  | i, p :: ps => do
    let single ← validateSinglePersona p
    let rest ← validateImportLoop total (i + 1) ps
    if single.isValid then
      let withWarn := single.warnings.length > 0
      pure
        { rest with
          valid := p :: rest.valid
          valid_personas := rest.valid_personas + 1
          warnings :=
            (if withWarn then
              [Json.obj
                [("persona_name", (p.jget "name").getD Json.null),
                 ("row", Json.num (i + 1 : Nat)),
                 ("warnings", Json.arr (single.warnings.map Json.str))]]
            else []) ++ rest.warnings
          personas_with_warnings :=
            rest.personas_with_warnings + (if withWarn then 1 else 0) }
    else
      pure
        { rest with
          errors :=
            Json.obj
              [("persona_name",
                jsOrDefault (p.jget "name") (Json.str ("Row " ++ natToStr (i + 1)))),
               ("row", Json.num (i + 1 : Nat)),
               ("errors", Json.arr (single.errors.map Json.str))] :: rest.errors
          invalid_personas := rest.invalid_personas + 1 }

/-- sheetsService.js `validatePersonas` (lines 276-316); `none` models a
thrown `TypeError` from a malformed name field. -/
def validatePersonas (personas : List Json) : Option ImportValidation :=
  validateImportLoop personas.length 0 personas

/-- The header-to-field synonym table of `parsePersonaFromRow`
(sheetsService.js lines 383-410). -/
def columnMapping : List (String × String) :=
  [("name", "name"), ("first name", "name"), ("full name", "name"),
   ("age", "age"), ("gender", "gender"),
   ("location", "location"), ("city", "location"), ("state", "location"),
   ("income", "income"), ("household income", "income"),
   ("education", "education"),
   ("occupation", "occupation"), ("job", "occupation"),
   ("interests", "interests"), ("hobbies", "interests"),
   ("values", "values"),
   ("communication style", "communication_style"),
   ("communication_style", "communication_style"),
   ("bio", "bio"), ("biography", "bio"), ("description", "bio"),
   ("motivations", "motivations"),
   ("barriers", "barriers"), ("concerns", "barriers"),
   ("personality", "personality"), ("traits", "personality")]

/-- Look a lowercased header up in the synonym table. -/
def mapColumn (header : String) : Option String :=
  (columnMapping.find? (fun p => p.1 = header)).map (·.2)

/-- Collapse every whitespace run to one underscore
(`header.replace(/\s+/g, '_')`). -/
def collapseWsGo : Bool → List Char → List Char
  | _, [] => []
  | prevWs, c :: rest =>
    if isJsWs c then
      (if prevWs then collapseWsGo true rest else '_' :: collapseWsGo true rest)
    else c :: collapseWsGo false rest

/-- See `collapseWsGo`. -/
def replaceWsUnderscore (s : String) : String :=
  String.mk (collapseWsGo false s.data)

/-- One column assignment of `parsePersonaFromRow` (lines 413-434):
skip blank cells, map known headers through the synonym table (with the
age / list-field special cases), store unknown headers under their
sanitized name. -/
def importCell (acc : List (String × Json)) (header value : String) :
    List (String × Json) :=
  if value = "" || jsTrim value = "" then acc
  else
    match mapColumn header with
    | some mp =>
      if mp = "age" then
        Json.fset acc "age" (Json.num (((parseIntJs value).getD 0 : Int) : Rat))
      else if mp = "interests" || mp = "motivations" || mp = "barriers" then
        Json.fset acc mp
          (Json.arr ((((splitCommaSemi value).map jsTrim).filter (fun x => x ≠ "")).map Json.str))
      else Json.fset acc mp (Json.str (jsTrim value))
    | none => Json.fset acc (replaceWsUnderscore header) (Json.str (jsTrim value))

/-- sheetsService.js `parsePersonaFromRow` (lines 379-443): cells are the
strings the sheets API returns; rows without a resolvable name yield
`null`. -/
def parsePersonaFromRow (row headers : List String) (now : String) :
    Option Json :=
  let fields := (headers.zip row).foldl (fun acc hv => importCell acc hv.1 hv.2) []
  if !(Json.otruthy (Json.fget fields "name")) then none
  else
    some (Json.obj
      (Json.fset (Json.fset fields "source" (Json.str "julius_sheet"))
        "imported_at" (Json.str now)))

/-- The 28 export headers of `exportEnrichedPersonas`
(sheetsService.js lines 461-470). -/
def exportHeaders : List String :=
  ["Name", "Age", "Gender", "Location", "Occupation", "Education", "Income",
   "Original Bio", "Interests", "Values", "Communication Style",
   "Social Media - Facebook", "Social Media - LinkedIn", "Social Media - Other",
   "Professional Background", "Community Involvement",
   "Legal Motivations", "Legal Barriers", "Legal Experience",
   "Preferred Legal Communication", "Decision Timeline", "Trust Factors",
   "Document Insights", "Enrichment Sources", "Confidence Score",
   "Original Source", "Enriched Date", "Campaign Matter"]

/-- The export headers as `fetchPersonasFromExternalSheet` would read them
back (lowercased and trimmed, line 223). -/
def exportHeadersLower : List String :=
  exportHeaders.map (fun h => jsTrim (jsToLower h))

/-- A `v || ''` cell written with `USER_ENTERED` and read back as a string. -/
def cellOf (v : Option Json) : String :=
  if Json.otruthy v then jsDisplay (v.getD Json.null) else ""

/-- An `Array.isArray(v) ? v.join(sep) : ''` cell. -/
def joinedCell (v : Option Json) (sep : String) : String :=
  match v with
  | some (Json.arr xs) => joinSep sep (xs.map displayElem)
  | _ => ""

/-- An `Array.isArray(v) ? v.join(sep) : v || ''` cell. -/
def joinedOrCell (v : Option Json) (sep : String) : String :=
  match v with
  | some (Json.arr xs) => joinSep sep (xs.map displayElem)
  | _ => cellOf v

/-- A `cond ? cond.join(sep) : ''` cell where the source calls `.join`
without an `Array.isArray` guard: `none` models the `TypeError` on a truthy
non-array. -/
def joinedUnguardedCell (v : Option Json) (sep : String) : Option String :=
  match v with
  | some (Json.arr xs) => some (joinSep sep (xs.map displayElem))
  | some w => if w.truthy then none else some ""
  | none => some ""

/-- The per-persona export row of `exportEnrichedPersonas`
(sheetsService.js lines 476-516), as the cell strings the sheet would
hold; `none` models the unguarded-join `TypeError` cases. -/
def buildExportRow (persona : Json) (campaignData : Json) :
    Option (List String) := do
  let smp := persona.jget "social_media_profiles"
  let fb := smp.bind (fun v => v.jget "facebook")
  let li := smp.bind (fun v => v.jget "linkedin")
  let op := smp.bind (fun v => v.jget "other_platforms")
  let enr := persona.jget "enrichment"
  let otherCell ← joinedUnguardedCell op ", "
  let sourcesCell ← joinedUnguardedCell (enr.bind (fun v => v.jget "sources")) ", "
  pure
    [cellOf (persona.jget "name"),
     cellOf (persona.jget "age"),
     cellOf (persona.jget "gender"),
     cellOf (persona.jget "location"),
     cellOf (persona.jget "occupation"),
     cellOf (persona.jget "education"),
     cellOf (persona.jget "income"),
     cellOf (persona.jget "bio"),
     joinedOrCell (persona.jget "interests") "; ",
     joinedOrCell (persona.jget "values") "; ",
     cellOf (persona.jget "communication_style"),
     (if Json.otruthy fb then
       "Active: " ++ jsDisplayOpt (fb.bind (fun v => v.jget "active")) ++
         ", Frequency: " ++ jsDisplayOpt (fb.bind (fun v => v.jget "frequency"))
      else ""),
     (if Json.otruthy li then
       "Active: " ++ jsDisplayOpt (li.bind (fun v => v.jget "active")) ++
         ", Usage: " ++ jsDisplayOpt (li.bind (fun v => v.jget "usage"))
      else ""),
     otherCell,
     cellOf ((persona.jget "professional_details").bind (fun v => v.jget "industry_experience")),
     joinedCell (persona.jget "community_involvement") "; ",
     joinedCell (persona.jget "legal_motivations") "; ",
     joinedCell (persona.jget "legal_barriers") "; ",
     cellOf ((persona.jget "legal_profile").bind (fun v => v.jget "likely_legal_experience")),
     cellOf (persona.jget "preferred_legal_communication"),
     cellOf (persona.jget "decision_timeline"),
     joinedCell (persona.jget "trust_factors_legal") "; ",
     joinedCell (persona.jget "document_insights") "; ",
     sourcesCell,
     cellOf (enr.bind (fun v => v.jget "confidence_score")),
     (if Json.otruthy (persona.jget "source") then
        jsDisplay ((persona.jget "source").getD Json.null)
      else "julius_sheet"),
     cellOf ((enr.bind (fun v => v.jget "enriched_at")).orElse
       (fun _ => (persona.jget "enrichment_metadata").bind (fun v => v.jget "enriched_at"))),
     cellOf (campaignData.jget "matter")]

/-- sheetsService.js `exportEnrichedPersonas` (lines 448-545). Its first
statement calls `initializeSheets()` (line 452), a name the module never
declares, so the `ReferenceError` is caught at line 541 and rethrown as
`Export failed: ...`; the success body (lines 455-539) follows the source
but is unreachable. -/
def exportEnrichedPersonas (enrichedPersonas : List Json)
    (campaignData options : Json) : Except String Json :=
  match resolveModuleName "initializeSheets" with
  | .error msg => .error ("Export failed: " ++ msg)
  | .ok _ =>
    let rowsOpt :=
      enrichedPersonas.foldr
        (fun p acc => acc.bind (fun rest => (buildExportRow p campaignData).map (· :: rest)))
        (some [])
    match rowsOpt with
    | none => .error "Export failed: TypeError: join is not a function"
    | some rows =>
      .ok (Json.obj
        [("success", Json.bool true),
         ("spreadsheet_id", jsOrDefault (options.jget "targetSpreadsheetId") (Json.str "created-spreadsheet")),
         ("sheet_url",
          Json.str ("https://docs.google.com/spreadsheets/d/" ++
            jsDisplay (jsOrDefault (options.jget "targetSpreadsheetId") (Json.str "created-spreadsheet")))),
         ("rows_exported", Json.num rows.length),
         ("updated_range", Json.null)])

end SheetsService

/-!
Embedding of the request dispatcher `api/generate-personas-v2.js`: the
mode decision (lines 119-176) and the generation workflow's step order
(research at lines 303-334, generation at lines 336-388).
-/

namespace Handler

/-- Character-list prefix test. -/
def chPrefix : List Char → List Char → Bool
  | [], _ => true
  | _ :: _, [] => false
  | a :: as, b :: bs => a = b && chPrefix as bs

/-- Substring containment on character lists. -/
def chContains (needle hay : List Char) : Bool :=
  hay.tails.any (fun t => chPrefix needle t)

/-- A character of the spreadsheet-id class `[a-zA-Z0-9-_]`. -/
def idChar (c : Char) : Bool :=
  c.isAlpha || c.isDigit || c = '-' || c = '_'

/-- The regex test of line 129:
`/^https:\/\/docs\.google\.com\/spreadsheets\/d\/[a-zA-Z0-9-_]+/.test(url)`. -/
def sheetsUrlPatternTest (url : String) : Bool :=
  let pre := "https://docs.google.com/spreadsheets/d/"
  chPrefix pre.data url.data &&
    (match url.data.drop pre.data.length with
     | c :: _ => idChar c
     | [] => false)

/-- Hostname of a URL as `new URL` exposes it (scheme required; parse
failure is `none`, which the source turns into the same 400 response as a
failed check). -/
def urlHostname (url : String) : Option String :=
  let afterScheme : Option (List Char) :=
    if chPrefix "https://".data url.data then some (url.data.drop 8)
    else if chPrefix "http://".data url.data then some (url.data.drop 7)
    else none
  afterScheme.map (fun rest =>
    String.mk (rest.takeWhile (fun c => !(c = '/' || c = ':' || c = '?' || c = '#' || c = '@'))))

/-- Pathname of a URL (everything from the first slash after the host up to
a query or fragment). -/
def urlPathname (url : String) : String :=
  let afterScheme : List Char :=
    if chPrefix "https://".data url.data then url.data.drop 8
    else if chPrefix "http://".data url.data then url.data.drop 7
    else []
  let rest := afterScheme.dropWhile (fun c => !(c = '/' || c = '?' || c = '#'))
  String.mk (rest.takeWhile (fun c => !(c = '?' || c = '#')))

/-- The second URL validation of lines 140-155: `new URL(url)` must parse,
the hostname must be `docs.google.com`, and the pathname must contain
`/spreadsheets/d/`. -/
def urlFormatCheck (url : String) : Bool :=
  match urlHostname url with
  | none => false
  | some h => h = "docs.google.com" && chContains "/spreadsheets/d/".data (urlPathname url).data

/-- The three dispatch outcomes of the handler after form parsing: a 400
response, the enrichment workflow (`handlePersonaEnrichment`), or the
generation workflow. -/
inductive Dispatch where
  | badRequest (error : String) : Dispatch
  | enrichmentWorkflow : Dispatch
  | generationWorkflow : Dispatch
  deriving DecidableEq

/-- generate-personas-v2.js lines 119-176: required-field validation, the
optional sheet-URL validation, then
`isEnrichmentMode = !!julius_personas_sheet_url`. -/
def handlerDispatch (fields : Json) : Dispatch :=
  if !(Json.otruthy (fields.jget "matter")) ||
      !(Json.otruthy (fields.jget "keywords")) ||
      !(Json.otruthy (fields.jget "target_description")) then
    .badRequest "Missing required fields"
  else
    match fields.jget "julius_personas_sheet_url" with
    | some url =>
      if url.truthy then
        let urlStr := jsDisplay url
        if !(sheetsUrlPatternTest urlStr) then
          .badRequest "Invalid Google Sheets URL"
        else if !(urlFormatCheck urlStr) then
          .badRequest "Invalid Google Sheets URL Format"
        else .enrichmentWorkflow
      else .generationWorkflow
    | none => .generationWorkflow

/-- An HTTP response of the handler. -/
structure HandlerResponse where
  status : Nat
  body : Json

/-- The generation workflow (generate-personas-v2.js lines 178-388) after
dispatch, returning the ordered trace of pipeline invocations alongside the
response. `parseInt(persona_count) || 5` supplies the count; research
errors and generation errors are rethrown into the 500 handler; a
completed generation hits `if (!personaResult.success)` (line 354) — a key
`generatePersonas` never sets — and is returned with status 422. -/
def generationWorkflow (fields : Json) (researchConfigured : Bool)
    (researchOutcomes : Fin 4 → ResearchAgent.PerplexityOutcome)
    (anthropicConfigured : Bool) (modelCall : Except String String)
    (uploadedData : Json) (sessionId now : String) :
    List String × HandlerResponse :=
  let matter := jsDisplayOpt (fields.jget "matter")
  let keywords := jsDisplayOpt (fields.jget "keywords")
  let campaign := Json.obj
    [("matter", (fields.jget "matter").getD Json.null),
     ("keywords", (fields.jget "keywords").getD Json.null),
     ("target_description", (fields.jget "target_description").getD Json.null)]
  let researchData :=
    ResearchAgent.conductResearch researchConfigured researchOutcomes matter keywords now
  let personaCount : Int :=
    match fields.jget "persona_count" with
    | some v =>
      match parseIntJs (jsDisplay v) with
      | some n => if n = 0 then 5 else n
      | none => 5
    | none => 5
  let genResult :=
    PersonaAgent.generatePersonas anthropicConfigured campaign uploadedData researchData
      personaCount modelCall now
  let response : HandlerResponse :=
    match genResult with
    | .error e =>
      { status := 500
        body := Json.obj
          [("error", Json.str "PROCESSING_FAILED"),
           ("message", Json.str e),
           ("sessionId", Json.str sessionId),
           ("timestamp", Json.str now)] }
    | .ok personaResult =>
      if !(Json.otruthy (personaResult.jget "success")) then
        { status := 422, body := personaResult }
      else
        { status := 200
          body := Json.obj
            [("success", Json.bool true),
             ("sessionId", Json.str sessionId),
             ("personas", (personaResult.jget "personas").getD Json.null),
             ("processingTime", Json.str now)] }
  (["conductResearch", "generatePersonas"], response)

end Handler

/-!
Support definitions for the claim theorems: failure predicates matching the
parsers' guard structure, and the concrete inputs used by witnesses and
counterexamples.
-/

/-- The parse-failure condition of the Stage A enrichment parser: no
curly-brace span, undecodable span, or missing/falsy `enrichedFields` or
`confidence`. -/
def enrichmentParseFails (text : String) : Bool :=
  match extractBetween braceO braceC text with
  | none => true
  | some jtext =>
    match parseJson jtext with
    | none => true
    | some parsedData =>
      !(Json.otruthy (parsedData.jget "enrichedFields")) ||
        !(Json.otruthy (parsedData.jget "confidence"))

/-- The parse-failure condition of the Generator's persona-array parser:
no square-bracket span, undecodable span, or a non-array decode. -/
def personaArrayParseFails (text : String) : Bool :=
  match extractBetween '[' ']' (jsTrim text) with
  | none => true
  | some atext =>
    match parseJson atext with
    | none => true
    | some (Json.arr _) => false
    | some _ => true

/-- The status stored under `persona.enrichment.status`. -/
def enrichmentStatusOf (q : Json) : Option Json :=
  (q.jget "enrichment").bind (fun b => b.jget "status")

/-- A model call whose parsed `enrichedFields` spread assigns no `name`
property (trivially true for a failed call). -/
def enrichNameUntouched (call : Except String String) : Prop :=
  match call with
  | .error _ => True
  | .ok t =>
    ∀ pr ∈ (PersonaEnrichmentAgent.parseEnrichmentResponse t).enrichedFields.spreadPairs,
      pr.1 ≠ "name"

/-- Whether the import validator keeps a persona: the name requirement does
not fire (see `SheetsService.nameError`). -/
def nameOk (p : Json) : Bool :=
  match SheetsService.nameError p with
  | some e => !e
  | none => false

/-- Whether the import validator's age check fires for a present age
(NaN, negative, or above 120). -/
def ageUnusual (p : Json) : Bool :=
  match p.jget "age" with
  | none => false
  | some v =>
    match jsToNumber v with
    | none => true
    | some q => q < 0 || q > 120

/-- The warning text the import validator records for an unusual age. -/
def ageWarningMsg (p : Json) : String :=
  "Age " ++ jsDisplay ((p.jget "age").getD Json.null) ++ " seems unusual"

/-- Whether the Generator's batch validator keeps a persona: complete and
scoring at least 50. -/
def keepPersona (p : Json) : Bool :=
  PersonaAgent.personaComplete p &&
    decide (PersonaAgent.qualityScore p ((PersonaAgent.citationCheck p).getD false) ≥ 50)

/-- C1 counterexample input: a persona whose only field is its name. -/
def c1Persona : Json :=
  Json.obj [("name", Json.str "Maria Gonzalez")]

/-- C1 counterexample model reply: well-formed enrichment JSON whose
`enrichedFields` carries a `name` key. -/
def c1Text : String :=
  "\x7b\"enrichedFields\": \x7b\"name\": \"Imposter\"\x7d, \"confidence\": 1\x7d"

/-- C1 counterexample oracle. -/
def c1Oracle : Nat → Except String String := fun _ => .ok c1Text

/-- C1 witness input persona. -/
def c1wPersona : Json :=
  Json.obj [("name", Json.str "Ana"), ("age", Json.num 44)]

/-- C1 witness oracle: the model call throws. -/
def c1wOracle : Nat → Except String String := fun _ => .error "rate limited"

/-- C1 witness output persona. -/
def c1wResult : Json :=
  ((PersonaEnrichmentAgent.enrichPersonas [c1wPersona] c1wOracle "T").get? 0).getD Json.null

/-- C4 counterexample outcomes: the demographics query is rejected with an
HTTP 500, the three others return well-formed JSON. -/
def c4Outcomes : Fin 4 → ResearchAgent.PerplexityOutcome := fun k =>
  if k = 0 then .httpFailure 500 none
  else .response (some "\x7b\"a\": 1\x7d")

/-- C4 witness contents: the demographics reply is unparsable prose, the
three others are well-formed JSON. -/
def c4wContents : Fin 4 → String := fun k =>
  if k = 0 then "Here is some prose without structure." else "\x7b\"a\": 1\x7d"

/-- C4 witness outcomes. -/
def c4wOutcomes : Fin 4 → ResearchAgent.PerplexityOutcome := fun k =>
  .response (some (c4wContents k))

/-- C6 witness personas: a complete one, one aged 150, one with no name. -/
def c6Personas : List Json :=
  [Json.obj
     [("name", Json.str "Keisha Jackson"), ("age", Json.num 42),
      ("location", Json.str "Chicago"), ("occupation", Json.str "Housekeeper"),
      ("bio", Json.str "Hotel housekeeper"),
      ("interests", Json.arr [Json.str "church choir"])],
   Json.obj
     [("name", Json.str "Pat"), ("age", Json.num 150),
      ("location", Json.str "LA"), ("occupation", Json.str "Aide"),
      ("bio", Json.str "Aide"), ("interests", Json.arr [Json.str "music"])],
   Json.obj [("age", Json.num 30)]]

/-- C6 witness validation result. -/
def c6Result : SheetsService.ImportValidation :=
  (SheetsService.validatePersonas c6Personas).getD (SheetsService.emptyImportValidation 0)

/-- C5 witness personas: a kept one (cited, confident, complete, long bio)
and a dropped one (missing bio). -/
def c5Personas : List Json :=
  [Json.obj
     [("name", Json.str "Maria"), ("age", Json.num 37),
      ("bio", Json.str (String.mk (List.replicate 120 'b'))),
      ("motivations", Json.arr [Json.str "accountability"]),
      ("barriers", Json.arr [Json.str "cost"]),
      ("communication_style", Json.str "direct"),
      ("confidence_score", Json.num 80),
      ("source_citations",
       Json.obj [("primary_sources", Json.arr [Json.str "mri_file"])])],
   Json.obj
     [("name", Json.str "NoBio"), ("age", Json.num 50),
      ("motivations", Json.arr [Json.str "m"]),
      ("barriers", Json.arr [Json.str "b"]),
      ("communication_style", Json.str "plain"),
      ("source_citations", Json.obj [("primary_sources", Json.arr [])])]]

/-- C9 counterexample research bundle: demographics present, so the data
sufficiency gate passes. -/
def c9Research : Json :=
  Json.obj [("demographics", Json.obj [("age_demographics", Json.str "x")])]

/-- C9 counterexample campaign data. -/
def c9Campaign : Json :=
  Json.obj
    [("matter", Json.str "X"), ("keywords", Json.str "y"),
     ("target_description", Json.str "z")]

/-- C9 counterexample generation result (the `[]` model reply). -/
def c9Result : Json :=
  match PersonaAgent.generatePersonas true c9Campaign Json.null c9Research 3 (.ok "[]") "T" with
  | .ok r => r
  | .error e => Json.str e

/-- C10 counterexample fields: required campaign fields present, a sheet
URL present but not a Google Sheets URL. -/
def c10Fields : Json :=
  Json.obj
    [("matter", Json.str "X"), ("keywords", Json.str "y"),
     ("target_description", Json.str "z"),
     ("julius_personas_sheet_url", Json.str "http://evil.example.com/spreadsheets/d/abc")]

/-- C10 witness fields: a well-formed Google Sheets URL. -/
def c10GoodFields : Json :=
  Json.obj
    [("matter", Json.str "X"), ("keywords", Json.str "y"),
     ("target_description", Json.str "z"),
     ("julius_personas_sheet_url",
      Json.str "https://docs.google.com/spreadsheets/d/1MyEQrGY2NAhvgf6lW4xS07ugaBYFwCaH3N799bMfsTo/edit#gid=0")]

/-- C8 counterexample persona: age zero (falsy, so its cell exports empty). -/
def c8Persona : Json :=
  Json.obj
    [("name", Json.str "Ana"), ("age", Json.num 0),
     ("communication_style", Json.str "direct")]

/-- C8 campaign data. -/
def c8Campaign : Json :=
  Json.obj [("matter", Json.str "M")]

/-- C8 counterexample exported row. -/
def c8Row : List String :=
  (SheetsService.buildExportRow c8Persona c8Campaign).getD []

/-- C8 counterexample re-imported persona. -/
def c8Reimported : Json :=
  (SheetsService.parsePersonaFromRow c8Row SheetsService.exportHeadersLower "T").getD Json.null

/-- C8 witness persona. -/
def c8wPersona : Json :=
  Json.obj
    [("name", Json.str "Robert Two Bears"), ("age", Json.num 34),
     ("communication_style", Json.str "plain spoken"),
     ("interests", Json.arr [Json.str "fishing"])]

/-- C2 derived: the fallback confidence of the enrichment parser. -/
def enrichmentFallbackConfidence : Option Rat :=
  PersonaEnrichmentAgent.enrichmentFallback.confidence

/-- The topic key of each of the four research queries, in issue order. -/
def topicAt : Fin 4 → String := fun j =>
  if j = 0 then "demographics"
  else if j = 1 then "social_insights"
  else if j = 2 then "legal_trends"
  else "consumer_behavior"

/-- The persona-field key a header lands on in `parsePersonaFromRow`:
through the synonym table when known, sanitized otherwise. -/
def importKey (header : String) : String :=
  match SheetsService.mapColumn header with
  | some mp => mp
  | none => SheetsService.replaceWsUnderscore header

/-- C8 witness row: the export row of `c8wPersona`. -/
def c8wRow : List String :=
  (SheetsService.buildExportRow c8wPersona c8Campaign).getD []

/-- C8 witness re-imported persona. -/
def c8wReimported : Json :=
  (SheetsService.parsePersonaFromRow c8wRow SheetsService.exportHeadersLower "T").getD Json.null

/-! ## Lemmas and claim theorems -/

namespace Json

theorem fget_cons (p : String × Json) (l : List (String × Json)) (k' : String) :
    fget (p :: l) k' = if p.1 = k' then some p.2 else fget l k' := by
  simp only [fget, List.find?]
  by_cases h : p.1 = k' <;> simp [h]

theorem fget_fset (fs : List (String × Json)) (k : String) (v : Json)
    (k' : String) :
    fget (fset fs k v) k' = if k' = k then some v else fget fs k' := by
  induction fs with
  | nil =>
    rw [show fset [] k v = [(k, v)] from rfl, fget_cons]
    by_cases h : k' = k
    · simp [h]
    · have h1 : ¬ k = k' := fun e => h e.symm
      simp [h, h1, fget]
  | cons p rest ih =>
    by_cases hp : p.1 = k
    · simp only [fset, if_pos hp]
      rw [fget_cons, fget_cons]
      by_cases h : k' = k
      · simp [h]
      · have h1 : ¬ k = k' := fun e => h e.symm
        have h2 : ¬ p.1 = k' := by rw [hp]; exact h1
        simp [h, h1, h2]
    · simp only [fset, if_neg hp]
      rw [fget_cons, ih]
      by_cases h : p.1 = k'
      · have hk : ¬ k' = k := fun e => hp (h.trans e)
        simp [h, hk, fget_cons]
      · by_cases h2 : k' = k
        · subst h2; simp [fget_cons, hp, ih]
        · simp [h, h2, fget_cons]

theorem fget_fset_self (fs : List (String × Json)) (k : String) (v : Json) :
    fget (fset fs k v) k = some v := by
  simp [fget_fset]

theorem fget_fset_ne (fs : List (String × Json)) (k : String) (v : Json)
    (k' : String) (h : k' ≠ k) :
    fget (fset fs k v) k' = fget fs k' := by
  simp [fget_fset, h]

theorem fget_fsetAll_of_not_mem (fs kvs : List (String × Json)) (k : String)
    (h : ∀ p ∈ kvs, p.1 ≠ k) :
    fget (fsetAll fs kvs) k = fget fs k := by
  induction kvs generalizing fs with
  | nil => rfl
  | cons q rest ih =>
    have hq : q.1 ≠ k := h q (List.mem_cons_self q rest)
    have hrest : ∀ p ∈ rest, p.1 ≠ k := fun p hp => h p (List.mem_cons_of_mem q hp)
    show fget (fsetAll (fset fs q.1 q.2) rest) k = fget fs k
    rw [ih (fset fs q.1 q.2) hrest, fget_fset_ne _ _ _ _ (fun e => hq e.symm)]

theorem fget_fsetAll_isSome (fs kvs : List (String × Json)) (k : String)
    (h : (fget fs k).isSome) :
    (fget (fsetAll fs kvs) k).isSome := by
  induction kvs generalizing fs with
  | nil => exact h
  | cons q rest ih =>
    show (fget (fsetAll (fset fs q.1 q.2) rest) k).isSome
    refine ih _ ?_
    rw [fget_fset]
    by_cases e : k = q.1 <;> simp [e, h]

theorem jget_obj (fs : List (String × Json)) (k : String) :
    jget (obj fs) k = fget fs k := rfl

end Json

namespace PersonaEnrichmentAgent

theorem enrichPersonasGo_get? (oracle : Nat → Except String String)
    (now : String) (ps : List Json) (i j : Nat) :
    (enrichPersonasGo oracle now i ps).get? j =
      (ps.get? j).map (fun p => enrichStep p (oracle (i + j)) now) := by
  induction ps generalizing i j with
  | nil => simp [enrichPersonasGo]
  | cons p rest ih =>
    cases j with
    | zero => simp [enrichPersonasGo]
    | succ j' =>
      simp only [enrichPersonasGo, List.get?]
      rw [ih (i + 1) j']
      have e : i + 1 + j' = i + (j' + 1) := by omega
      rw [e]

theorem enrichPersonas_length (personas : List Json)
    (oracle : Nat → Except String String) (now : String) :
    (enrichPersonas personas oracle now).length = personas.length := by
  unfold enrichPersonas
  generalize 0 = i
  induction personas generalizing i with
  | nil => rfl
  | cons p rest ih => simp [enrichPersonasGo, ih]

end PersonaEnrichmentAgent

/-- C3: for every input, `exportEnrichedPersonas` throws (its success value
is unreachable), because its first statement calls `initializeSheets`,
which is not defined anywhere in the sheetsService module; the enrichment
workflow's export step can therefore never complete. -/
theorem claim_C3 (enrichedPersonas : List Json) (campaignData options : Json) :
    SheetsService.exportEnrichedPersonas enrichedPersonas campaignData options =
      .error "Export failed: initializeSheets is not defined" := rfl

/-- C2 counterexample: at a concrete model reply with no JSON array, the
Generator's persona-array parser raises a `Persona parsing failed` error to
its caller instead of returning a low-confidence fallback object, refuting
the claim that no model-response parser ever raises. -/
theorem claim_C2_counterexample :
    PersonaAgent.parsePersonaResponse "The model returned no personas today." =
      .error "Persona parsing failed: No JSON array found in Claude response" := rfl

/-- C2 (amended): every parse failure of the enrichment response parser
yields its deterministic fallback object, whose confidence is 0.3 (at most
0.3), and that parser never raises; the persona-array parser used by the
Generator instead raises an error to its caller on every parse failure. -/
theorem claim_C2_amended :
    (∀ text : String, enrichmentParseFails text = true →
      PersonaEnrichmentAgent.parseEnrichmentResponse text =
        PersonaEnrichmentAgent.enrichmentFallback) ∧
    PersonaEnrichmentAgent.enrichmentFallback.confidence = some (3 / 10) ∧
    (∀ text : String, personaArrayParseFails text = true →
      ∃ msg : String, PersonaAgent.parsePersonaResponse text = .error msg) := by
  refine ⟨?_, rfl, ?_⟩
  · intro text h
    unfold enrichmentParseFails at h
    unfold PersonaEnrichmentAgent.parseEnrichmentResponse
    split
    · rfl
    · next jtext heq =>
      rw [heq] at h
      try simp only [] at h
      split
      · rfl
      · next parsedData hp =>
        rw [hp] at h
        try simp only [] at h
        simp [h]
  · intro text h
    unfold personaArrayParseFails at h
    unfold PersonaAgent.parsePersonaResponse
    split
    · exact ⟨_, rfl⟩
    · next atext heq =>
      rw [heq] at h
      try simp only [] at h
      split
      · exact ⟨_, rfl⟩
      · next v hp =>
        rw [hp] at h
        try simp only [] at h
        cases v <;> simp_all <;> exact ⟨_, rfl⟩

/-- C2 witness: the amended theorem applied at concrete unparsable replies. -/
theorem claim_C2_witness :
    PersonaEnrichmentAgent.parseEnrichmentResponse "no json here" =
      PersonaEnrichmentAgent.enrichmentFallback ∧
    (∃ msg : String, PersonaAgent.parsePersonaResponse "still no json" = .error msg) :=
  ⟨claim_C2_amended.1 "no json here" (by decide),
   claim_C2_amended.2.2 "still no json" (by decide)⟩

/-- C4 counterexample: with the demographics query rejected (HTTP 500) and
the three other queries succeeding, `conductResearch` returns only
`{error, partial_data: null}` — the three successful topics are dropped, so
a failing query aborts the whole batch rather than degrading to a tagged
error object inside it. -/
theorem claim_C4_counterexample :
    ResearchAgent.conductResearch true c4Outcomes "mass tort" "injury" "T" =
      Json.obj
        [("error", Json.str "Perplexity API error: 500 - Unknown error"),
         ("partial_data", Json.null)] ∧
    (ResearchAgent.conductResearch true c4Outcomes "mass tort" "injury" "T").jget
      "social_insights" = none := ⟨rfl, rfl⟩

/-- C7: the LLM validator's parser returns its fallback (approved, with
confidence 60) for every response text, because its success path reads the
never-declared `jsonMatch` and the resulting `ReferenceError` always lands
in the catch; consequently `validateSinglePersona` reports
`validation_passed` for every persona and every model call outcome, and
`validatePersonas` (with the key configured) validates every persona. -/
theorem claim_C7 :
    (∀ text : String,
      ValidationAgent.parseValidationResponse text = ValidationAgent.validationFallback) ∧
    ValidationAgent.validationFallback.jget "approved" = some (Json.bool true) ∧
    ValidationAgent.validationFallback.jget "confidence" = some (Json.num 60) ∧
    (∀ (persona : Json) (call : Except String String),
      (ValidationAgent.validateSinglePersona persona call).jget "validation_passed" =
        some (Json.bool true)) ∧
    (∀ (personas : List Json) (oracle : Nat → Except String String),
      (ValidationAgent.validatePersonas true personas oracle).jget "validated" =
        some (Json.arr personas)) := by
  have hparse : ∀ text : String,
      ValidationAgent.parseValidationResponse text = ValidationAgent.validationFallback := by
    intro text; rfl
  have hsingle : ∀ (persona : Json) (call : Except String String),
      (ValidationAgent.validateSinglePersona persona call).jget "validation_passed" =
        some (Json.bool true) := by
    intro persona call
    cases call with
    | error e => rfl
    | ok text => rfl
  refine ⟨hparse, rfl, rfl, hsingle, ?_⟩
  intro personas oracle
  have key : ∀ (i : Nat) (ps : List Json),
      ((ValidationAgent.validateLoop oracle i ps).filter
          (fun r => Json.otruthy (r.jget "validation_passed"))).map
        (fun r => (r.jget "persona").getD Json.null) = ps := by
    intro i ps
    induction ps generalizing i with
    | nil => rfl
    | cons p rest ih =>
      have hpass := hsingle p (oracle i)
      have hper : (ValidationAgent.validateSinglePersona p (oracle i)).jget "persona" = some p := by
        cases h : oracle i with
        | error e => rfl
        | ok text => rfl
      have hcond : Json.otruthy
          ((ValidationAgent.validateSinglePersona p (oracle i)).jget "validation_passed") = true := by
        rw [hpass]; rfl
      simp only [ValidationAgent.validateLoop, List.filter_cons, hcond, if_true, List.map_cons,
        hper, Option.getD_some]
      rw [ih (i + 1)]
  unfold ValidationAgent.validatePersonas
  rw [if_neg (by decide)]
  rw [Json.jget_obj, Json.fget_cons, if_pos rfl]
  rw [key 0 personas]

/-- C4 (amended): if exactly one of the four topic queries returns
non-empty but unparsable content while the others return JSON objects, the
failing one degrades to a tagged error object carrying `error` and
`_request_type`, and the other three queries' parsed results are still
returned in the aggregated bundle; a query that *fails* (rejects), or one
whose content is empty or absent (the falsy-content check throws), by
contrast aborts the whole batch (see the counterexample). -/
theorem claim_C4_amended (contents : Fin 4 → String)
    (caseType keywords now : String) (j : Fin 4)
    (hfail : parseJson (contents j) = none) (hne : contents j ≠ "")
    (hok : ∀ k, k ≠ j → ∃ fs, parseJson (contents k) = some (Json.obj fs)) :
    (∃ tagged,
      (ResearchAgent.conductResearch true (fun k => .response (some (contents k)))
          caseType keywords now).jget (topicAt j) = some tagged ∧
        tagged.jget "error" = some (Json.str "Could not parse structured response") ∧
        tagged.jget "_request_type" = some (Json.str (topicAt j))) ∧
    (∀ k, k ≠ j → ∃ v,
      (ResearchAgent.conductResearch true (fun k => .response (some (contents k)))
          caseType keywords now).jget (topicAt k) = some v ∧
        v.jget "_request_type" = some (Json.str (topicAt k))) := by
  fin_cases j
  · obtain ⟨fs1, h1⟩ := hok 1 (by decide)
    obtain ⟨fs2, h2⟩ := hok 2 (by decide)
    obtain ⟨fs3, h3⟩ := hok 3 (by decide)
    have hpf : parseJson (contents 0) = none := hfail
    have hne0 : contents 0 ≠ "" := hne
    have hne1 : contents 1 ≠ "" := by
      intro e
      rw [e, show parseJson "" = none from rfl] at h1
      exact Option.noConfusion h1
    have hne2 : contents 2 ≠ "" := by
      intro e
      rw [e, show parseJson "" = none from rfl] at h2
      exact Option.noConfusion h2
    have hne3 : contents 3 ≠ "" := by
      intro e
      rw [e, show parseJson "" = none from rfl] at h3
      exact Option.noConfusion h3
    simp only [ResearchAgent.conductResearch, ResearchAgent.makePerplexityRequest,
      hpf, h1, h2, h3, if_neg hne0, if_neg hne1, if_neg hne2, if_neg hne3,
      Bool.not_true, Bool.false_eq_true, if_false]
    refine ⟨⟨_, rfl, rfl, rfl⟩, ?_⟩
    intro k hk
    fin_cases k
    · exact absurd rfl hk
    · exact ⟨_, rfl, by rw [Json.jget_obj, Json.fget_fset_self]; rfl⟩
    · exact ⟨_, rfl, by rw [Json.jget_obj, Json.fget_fset_self]; rfl⟩
    · exact ⟨_, rfl, by rw [Json.jget_obj, Json.fget_fset_self]; rfl⟩
  · obtain ⟨fs0, h0⟩ := hok 0 (by decide)
    obtain ⟨fs2, h2⟩ := hok 2 (by decide)
    obtain ⟨fs3, h3⟩ := hok 3 (by decide)
    have hpf : parseJson (contents 1) = none := hfail
    have hne1 : contents 1 ≠ "" := hne
    have hne0 : contents 0 ≠ "" := by
      intro e
      rw [e, show parseJson "" = none from rfl] at h0
      exact Option.noConfusion h0
    have hne2 : contents 2 ≠ "" := by
      intro e
      rw [e, show parseJson "" = none from rfl] at h2
      exact Option.noConfusion h2
    have hne3 : contents 3 ≠ "" := by
      intro e
      rw [e, show parseJson "" = none from rfl] at h3
      exact Option.noConfusion h3
    simp only [ResearchAgent.conductResearch, ResearchAgent.makePerplexityRequest,
      hpf, h0, h2, h3, if_neg hne0, if_neg hne1, if_neg hne2, if_neg hne3,
      Bool.not_true, Bool.false_eq_true, if_false]
    refine ⟨⟨_, rfl, rfl, rfl⟩, ?_⟩
    intro k hk
    fin_cases k
    · exact ⟨_, rfl, by rw [Json.jget_obj, Json.fget_fset_self]; rfl⟩
    · exact absurd rfl hk
    · exact ⟨_, rfl, by rw [Json.jget_obj, Json.fget_fset_self]; rfl⟩
    · exact ⟨_, rfl, by rw [Json.jget_obj, Json.fget_fset_self]; rfl⟩
  · obtain ⟨fs0, h0⟩ := hok 0 (by decide)
    obtain ⟨fs1, h1⟩ := hok 1 (by decide)
    obtain ⟨fs3, h3⟩ := hok 3 (by decide)
    have hpf : parseJson (contents 2) = none := hfail
    have hne2 : contents 2 ≠ "" := hne
    have hne0 : contents 0 ≠ "" := by
      intro e
      rw [e, show parseJson "" = none from rfl] at h0
      exact Option.noConfusion h0
    have hne1 : contents 1 ≠ "" := by
      intro e
      rw [e, show parseJson "" = none from rfl] at h1
      exact Option.noConfusion h1
    have hne3 : contents 3 ≠ "" := by
      intro e
      rw [e, show parseJson "" = none from rfl] at h3
      exact Option.noConfusion h3
    simp only [ResearchAgent.conductResearch, ResearchAgent.makePerplexityRequest,
      hpf, h0, h1, h3, if_neg hne0, if_neg hne1, if_neg hne2, if_neg hne3,
      Bool.not_true, Bool.false_eq_true, if_false]
    refine ⟨⟨_, rfl, rfl, rfl⟩, ?_⟩
    intro k hk
    fin_cases k
    · exact ⟨_, rfl, by rw [Json.jget_obj, Json.fget_fset_self]; rfl⟩
    · exact ⟨_, rfl, by rw [Json.jget_obj, Json.fget_fset_self]; rfl⟩
    · exact absurd rfl hk
    · exact ⟨_, rfl, by rw [Json.jget_obj, Json.fget_fset_self]; rfl⟩
  · obtain ⟨fs0, h0⟩ := hok 0 (by decide)
    obtain ⟨fs1, h1⟩ := hok 1 (by decide)
    obtain ⟨fs2, h2⟩ := hok 2 (by decide)
    have hpf : parseJson (contents 3) = none := hfail
    have hne3 : contents 3 ≠ "" := hne
    have hne0 : contents 0 ≠ "" := by
      intro e
      rw [e, show parseJson "" = none from rfl] at h0
      exact Option.noConfusion h0
    have hne1 : contents 1 ≠ "" := by
      intro e
      rw [e, show parseJson "" = none from rfl] at h1
      exact Option.noConfusion h1
    have hne2 : contents 2 ≠ "" := by
      intro e
      rw [e, show parseJson "" = none from rfl] at h2
      exact Option.noConfusion h2
    simp only [ResearchAgent.conductResearch, ResearchAgent.makePerplexityRequest,
      hpf, h0, h1, h2, if_neg hne0, if_neg hne1, if_neg hne2, if_neg hne3,
      Bool.not_true, Bool.false_eq_true, if_false]
    refine ⟨⟨_, rfl, rfl, rfl⟩, ?_⟩
    intro k hk
    fin_cases k
    · exact ⟨_, rfl, by rw [Json.jget_obj, Json.fget_fset_self]; rfl⟩
    · exact ⟨_, rfl, by rw [Json.jget_obj, Json.fget_fset_self]; rfl⟩
    · exact ⟨_, rfl, by rw [Json.jget_obj, Json.fget_fset_self]; rfl⟩
    · exact absurd rfl hk

/-- C4 witness: the amended theorem at a concrete run where the
demographics reply is unparsable prose and the other three parse. -/
theorem claim_C4_witness :
    parseJson (c4wContents 0) = none ∧
    c4wContents 0 ≠ "" ∧
    (∃ tagged,
      (ResearchAgent.conductResearch true c4wOutcomes "mass tort" "injury" "T").jget
          "demographics" = some tagged ∧
        tagged.jget "error" = some (Json.str "Could not parse structured response") ∧
        tagged.jget "_request_type" = some (Json.str "demographics")) ∧
    (∃ v,
      (ResearchAgent.conductResearch true c4wOutcomes "mass tort" "injury" "T").jget
          "social_insights" = some v ∧
        v.jget "_request_type" = some (Json.str "social_insights")) := by
  have hok : ∀ k, k ≠ (0 : Fin 4) → ∃ fs, parseJson (c4wContents k) = some (Json.obj fs) := by
    intro k hk
    fin_cases k
    · exact absurd rfl hk
    · exact ⟨[("a", Json.num 1)], rfl⟩
    · exact ⟨[("a", Json.num 1)], rfl⟩
    · exact ⟨[("a", Json.num 1)], rfl⟩
  have h := claim_C4_amended c4wContents "mass tort" "injury" "T" 0 rfl (by decide) hok
  exact ⟨rfl, by decide, h.1, h.2 1 (by decide)⟩

/-- C9 counterexample: at a concrete run whose model reply is `[]`, the
Generator does return successfully with zero personas, but its returned
`validation` object is the data-sufficiency record, which carries no
`valid_personas` field at all — so no validation summary reporting
`valid_personas = 0` exists in the result. -/
theorem claim_C9_counterexample :
    PersonaAgent.generatePersonas true c9Campaign Json.null c9Research 3 (.ok "[]") "T" =
      .ok c9Result ∧
    c9Result.jget "personas" = some (Json.arr []) ∧
    ((c9Result.jget "validation").getD Json.null).jget "valid_personas" = none := by
  refine ⟨?_, rfl, rfl⟩
  rfl

/-- C9 (amended): whenever the data-sufficiency gate passes, a model reply
of `[]` makes the Generator return successfully with zero personas and no
error; its `validation` field is the data-sufficiency record, which
contains no `valid_personas` key (the generation path never produces such
a summary). -/
theorem claim_C9_amended (campaignData uploadedData researchData : Json)
    (count : Int) (now : String)
    (hsuff : Json.otruthy
      ((PersonaAgent.validateDataSufficiency
        (PersonaAgent.buildSourceContext uploadedData researchData)).jget "sufficient") = true) :
    ∃ r,
      PersonaAgent.generatePersonas true campaignData uploadedData researchData count
          (.ok "[]") now = .ok r ∧
      r.jget "personas" = some (Json.arr []) ∧
      r.jget "validation" = some (PersonaAgent.validateDataSufficiency
        (PersonaAgent.buildSourceContext uploadedData researchData)) ∧
      (PersonaAgent.validateDataSufficiency
        (PersonaAgent.buildSourceContext uploadedData researchData)).jget
          "valid_personas" = none := by
  refine ⟨Json.obj
      [("personas", Json.arr []),
       ("sources_used", PersonaAgent.extractSourceSummary
         (PersonaAgent.buildSourceContext uploadedData researchData)),
       ("validation", PersonaAgent.validateDataSufficiency
         (PersonaAgent.buildSourceContext uploadedData researchData)),
       ("generation_timestamp", Json.str now)], ?_, rfl, rfl, rfl⟩
  unfold PersonaAgent.generatePersonas
  rw [if_neg (by decide), if_neg (by simp [hsuff])]
  rfl

/-- C9 witness: the amended theorem at the concrete sufficient inputs of
the counterexample. -/
theorem claim_C9_witness :
    ∃ r,
      PersonaAgent.generatePersonas true c9Campaign Json.null c9Research 3 (.ok "[]") "T" =
        .ok r ∧
      r.jget "personas" = some (Json.arr []) ∧
      r.jget "validation" = some (PersonaAgent.validateDataSufficiency
        (PersonaAgent.buildSourceContext Json.null c9Research)) ∧
      (PersonaAgent.validateDataSufficiency
        (PersonaAgent.buildSourceContext Json.null c9Research)).jget "valid_personas" = none :=
  claim_C9_amended c9Campaign Json.null c9Research 3 "T" rfl

/-- C10 counterexample: a request with all required campaign fields and a
present (truthy) `julius_personas_sheet_url` that is not a Google Sheets
URL is answered with a 400 before any workflow is chosen — the enrichment
workflow is not selected even though the URL is present, refuting
"selected exactly when present". -/
theorem claim_C10_counterexample :
    Json.otruthy (c10Fields.jget "julius_personas_sheet_url") = true ∧
    Handler.handlerDispatch c10Fields =
      Handler.Dispatch.badRequest "Invalid Google Sheets URL" ∧
    Handler.handlerDispatch c10Fields ≠ Handler.Dispatch.enrichmentWorkflow := by
  refine ⟨rfl, rfl, ?_⟩
  intro h
  rw [show Handler.handlerDispatch c10Fields =
    Handler.Dispatch.badRequest "Invalid Google Sheets URL" from rfl] at h
  exact absurd h (by decide)

/-- C10 (amended): for every request with the required campaign fields, the
enrichment workflow is selected exactly when `julius_personas_sheet_url` is
present (truthy) and passes both URL validations; a present but malformed
URL yields a 400 and neither workflow runs. When the URL is absent or
falsy, generation mode is selected, and in the generation workflow the
Research Collector is invoked before the Persona Generator. -/
theorem claim_C10_amended (fields : Json)
    (hm : Json.otruthy (fields.jget "matter") = true)
    (hk : Json.otruthy (fields.jget "keywords") = true)
    (ht : Json.otruthy (fields.jget "target_description") = true) :
    (Handler.handlerDispatch fields = Handler.Dispatch.enrichmentWorkflow ↔
      (Json.otruthy (fields.jget "julius_personas_sheet_url") = true ∧
       Handler.sheetsUrlPatternTest
         (jsDisplayOpt (fields.jget "julius_personas_sheet_url")) = true ∧
       Handler.urlFormatCheck
         (jsDisplayOpt (fields.jget "julius_personas_sheet_url")) = true)) ∧
    (Json.otruthy (fields.jget "julius_personas_sheet_url") = false →
      Handler.handlerDispatch fields = Handler.Dispatch.generationWorkflow) ∧
    (∀ (rc : Bool) (ro : Fin 4 → ResearchAgent.PerplexityOutcome) (ac : Bool)
       (mc : Except String String) (ud : Json) (sid now : String),
      (Handler.generationWorkflow fields rc ro ac mc ud sid now).1 =
        ["conductResearch", "generatePersonas"]) := by
  have hreq : (!(Json.otruthy (fields.jget "matter")) ||
      !(Json.otruthy (fields.jget "keywords")) ||
      !(Json.otruthy (fields.jget "target_description"))) = false := by
    rw [hm, hk, ht]; rfl
  refine ⟨?_, ?_, ?_⟩
  · unfold Handler.handlerDispatch
    rw [hreq]
    simp only [Bool.false_eq_true, if_false]
    cases hu : fields.jget "julius_personas_sheet_url" with
    | none =>
      constructor
      · intro h; exact absurd h (by decide)
      · rintro ⟨h1, -⟩; simp [Json.otruthy] at h1
    | some url =>
      by_cases htr : url.truthy
      · simp only [htr, if_true]
        by_cases hp : Handler.sheetsUrlPatternTest (jsDisplay url)
        · by_cases hf : Handler.urlFormatCheck (jsDisplay url)
          · simp only [hp, hf, Bool.not_true, Bool.false_eq_true, if_false]
            constructor
            · intro _
              exact ⟨by simp [Json.otruthy, htr], by simpa [jsDisplayOpt] using hp,
                by simpa [jsDisplayOpt] using hf⟩
            · intro _; trivial
          · simp only [hp, hf, Bool.not_true, Bool.not_false, Bool.false_eq_true, if_false, if_true]
            constructor
            · intro h; exact absurd h (by decide)
            · rintro ⟨-, -, h3⟩
              simp only [jsDisplayOpt] at h3
              exact absurd h3 hf
        · simp only [hp, Bool.not_false, if_true]
          constructor
          · intro h; exact absurd h (by decide)
          · rintro ⟨-, h2, -⟩
            simp only [jsDisplayOpt] at h2
            exact absurd h2 hp
      · simp only [htr, Bool.false_eq_true, if_false]
        constructor
        · intro h; exact absurd h (by decide)
        · rintro ⟨h1, -⟩
          simp only [Json.otruthy] at h1
          exact absurd h1 htr
  · intro hfal
    unfold Handler.handlerDispatch
    rw [hreq]
    simp only [Bool.false_eq_true, if_false]
    cases hu : fields.jget "julius_personas_sheet_url" with
    | none => rfl
    | some url =>
      rw [hu] at hfal
      simp only [Json.otruthy] at hfal
      simp [hfal]
  · intro rc ro ac mc ud sid now
    rfl

/-- C10 witness: the amended theorem at a request with a well-formed sheet
URL (enrichment selected) and the generation trace order. -/
theorem claim_C10_witness :
    Handler.handlerDispatch c10GoodFields = Handler.Dispatch.enrichmentWorkflow ∧
    (Handler.generationWorkflow c10GoodFields true
        (fun _ => ResearchAgent.PerplexityOutcome.network) true (.error "x")
        Json.null "sid" "T").1 = ["conductResearch", "generatePersonas"] := by
  have h := claim_C10_amended c10GoodFields rfl rfl rfl
  exact ⟨h.1.mpr ⟨rfl, rfl, rfl⟩,
    h.2.2 true (fun _ => ResearchAgent.PerplexityOutcome.network) true (.error "x")
      Json.null "sid" "T"⟩

/-- C1 counterexample: a model reply whose `enrichedFields` carries a
`name` key overwrites the persona's name in Stage A (the spread
`{...persona, ...enrichedFields, ...}` lets enriched keys win), refuting
"its name field is identical to the input persona's name" as stated for
every input. -/
theorem claim_C1_counterexample :
    (((PersonaEnrichmentAgent.enrichPersonas [c1Persona] c1Oracle "T").get? 0).bind
      (fun q => q.jget "name")) = some (Json.str "Imposter") ∧
    c1Persona.jget "name" = some (Json.str "Maria Gonzalez") ∧
    ¬((((PersonaEnrichmentAgent.enrichPersonas [c1Persona] c1Oracle "T").get? 0).bind
      (fun q => q.jget "name")) = c1Persona.jget "name") := by
  refine ⟨rfl, rfl, ?_⟩
  intro h
  rw [show (((PersonaEnrichmentAgent.enrichPersonas [c1Persona] c1Oracle "T").get? 0).bind
      (fun q => q.jget "name")) = some (Json.str "Imposter") from rfl,
    show c1Persona.jget "name" = some (Json.str "Maria Gonzalez") from rfl] at h
  simp only [Option.some.injEq, Json.str.injEq] at h
  exact absurd h (by decide)

/-- C1 (amended): Stage A (`enrichPersonas`) emits one output per input
persona; every output carries an `enrichment` block whose status is
`enriched` or `failed`; the name is unchanged whenever the parsed
`enrichedFields` does not itself assign a `name` property (in particular
always on the failed path); no field of the input object is removed; and a
persona whose model call failed keeps every field unchanged with only the
failed `enrichment` block added. -/
theorem claim_C1_amended (personas : List Json)
    (oracle : Nat → Except String String) (now : String) :
    (PersonaEnrichmentAgent.enrichPersonas personas oracle now).length = personas.length ∧
    (∀ (i : Nat) (fs : List (String × Json)) (q : Json),
      personas.get? i = some (Json.obj fs) →
      (PersonaEnrichmentAgent.enrichPersonas personas oracle now).get? i = some q →
      ((enrichmentStatusOf q = some (Json.str "enriched") ∨
          enrichmentStatusOf q = some (Json.str "failed")) ∧
       (enrichNameUntouched (oracle i) →
          q.jget "name" = (Json.obj fs).jget "name") ∧
       (∀ k : String, ((Json.obj fs).jget k).isSome = true → (q.jget k).isSome = true) ∧
       (∀ e : String, oracle i = .error e →
          ∀ k : String, k ≠ "enrichment" → q.jget k = (Json.obj fs).jget k))) := by
  refine ⟨PersonaEnrichmentAgent.enrichPersonas_length personas oracle now, ?_⟩
  intro i fs q hp hq
  have hstep := PersonaEnrichmentAgent.enrichPersonasGo_get? oracle now personas 0 i
  rw [hp] at hstep
  unfold PersonaEnrichmentAgent.enrichPersonas at hq
  rw [hstep] at hq
  simp only [Option.map_some', Option.some.injEq, Nat.zero_add] at hq
  subst hq
  cases ho : oracle i with
  | error e =>
    have hqe : PersonaEnrichmentAgent.enrichStep (Json.obj fs) (Except.error e) now =
        Json.obj (Json.fset fs "enrichment"
          (PersonaEnrichmentAgent.failedBlock ("AI enrichment failed: " ++ e) now)) := rfl
    rw [hqe]
    refine ⟨Or.inr ?_, ?_, ?_, ?_⟩
    · unfold enrichmentStatusOf
      rw [Json.jget_obj, Json.fget_fset_self]
      rfl
    · intro _
      rw [Json.jget_obj, Json.fget_fset_ne _ _ _ _ (by decide), Json.jget_obj]
    · intro k hk
      rw [Json.jget_obj, Json.fget_fset]
      by_cases hke : k = "enrichment"
      · simp [hke]
      · simp only [hke, if_false]
        rw [Json.jget_obj] at hk
        exact hk
    · intro e2 _ k hk
      rw [Json.jget_obj, Json.fget_fset_ne _ _ _ _ hk, Json.jget_obj]
  | ok t =>
    have hqe : PersonaEnrichmentAgent.enrichStep (Json.obj fs) (Except.ok t) now =
        Json.obj (Json.fset
          (Json.spreadInto fs (PersonaEnrichmentAgent.parseEnrichmentResponse t).enrichedFields)
          "enrichment"
          (PersonaEnrichmentAgent.enrichedBlock
            (PersonaEnrichmentAgent.parseEnrichmentResponse t) now)) := rfl
    rw [hqe]
    refine ⟨Or.inl ?_, ?_, ?_, ?_⟩
    · unfold enrichmentStatusOf
      rw [Json.jget_obj, Json.fget_fset_self]
      rfl
    · intro hname
      unfold enrichNameUntouched at hname
      rw [Json.jget_obj, Json.fget_fset_ne _ _ _ _ (by decide)]
      unfold Json.spreadInto
      rw [Json.fget_fsetAll_of_not_mem _ _ _ hname, Json.jget_obj]
    · intro k hk
      rw [Json.jget_obj, Json.fget_fset]
      by_cases hke : k = "enrichment"
      · simp [hke]
      · simp only [hke, if_false]
        rw [Json.jget_obj] at hk
        unfold Json.spreadInto
        exact Json.fget_fsetAll_isSome _ _ _ hk
    · intro e2 he2
      exact absurd he2 (by simp)

/-- C1 witness: the amended theorem at a persona whose model call throws —
the output keeps the name and all fields and carries a failed status. -/
theorem claim_C1_witness :
    (enrichmentStatusOf c1wResult = some (Json.str "enriched") ∨
      enrichmentStatusOf c1wResult = some (Json.str "failed")) ∧
    c1wResult.jget "name" = c1wPersona.jget "name" ∧
    (c1wResult.jget "age").isSome = true := by
  have h := (claim_C1_amended [c1wPersona] c1wOracle "T").2 0
    [("name", Json.str "Ana"), ("age", Json.num 44)] c1wResult rfl rfl
  exact ⟨h.1, h.2.1 trivial, h.2.2.1 "age" rfl⟩

/-- C5: the Generator's batch validation returns exactly the personas that
have all required fields and score at least 50 (each with its `validation`
block attached), silently excluding the rest, and the weighted quality
score (+30 citations, +25 confidence>70, +25 completeness, +20 bio
length>100) never exceeds 100. The hypothesis rules out the `TypeError`
corner (a truthy `source_citations` without a readable `primary_sources`),
which the pipeline's own `addSourceCitations` always rules out. -/
theorem claim_C5 (personas : List Json)
    (hsafe : ∀ p ∈ personas, (PersonaAgent.citationCheck p).isSome = true) :
    PersonaAgent.validatePersonas personas =
      .ok ((personas.filter keepPersona).map (fun p =>
        Json.jset p "validation"
          (PersonaAgent.validationBlock p ((PersonaAgent.citationCheck p).getD false)))) ∧
    (∀ p : Json,
      PersonaAgent.qualityScore p ((PersonaAgent.citationCheck p).getD false) ≤ 100) := by
  constructor
  · induction personas with
    | nil => rfl
    | cons p rest ih =>
      have hp := hsafe p (List.mem_cons_self p rest)
      obtain ⟨cit, hc⟩ := Option.isSome_iff_exists.mp hp
      have ihr := ih (fun x hx => hsafe x (List.mem_cons_of_mem p hx))
      show (match PersonaAgent.citationCheck p with
        | none => Except.error "TypeError: cannot read length of undefined"
        | some citation =>
          (PersonaAgent.validatePersonas rest).map (fun rest2 =>
            if PersonaAgent.personaComplete p &&
                PersonaAgent.qualityScore p citation ≥ 50 then
              Json.jset p "validation" (PersonaAgent.validationBlock p citation) :: rest2
            else rest2)) = _
      rw [hc, ihr]
      simp only [Except.map_ok, List.filter_cons]
      have hkiff : keepPersona p = true ↔
          (PersonaAgent.personaComplete p = true ∧ PersonaAgent.qualityScore p cit ≥ 50) := by
        unfold keepPersona
        rw [hc]
        simp [Option.getD_some]
      split
      · next hkeep =>
        simp only [Bool.and_eq_true, decide_eq_true_eq] at hkeep
        have hk2 : keepPersona p = true := hkiff.mpr ⟨hkeep.1, hkeep.2⟩
        simp [hk2, hc]
        rfl
      · next hkeep =>
        have hk2 : ¬ (keepPersona p = true) := by
          intro hcontra
          obtain ⟨h1, h2⟩ := hkiff.mp hcontra
          exact hkeep (by simp [h1, h2])
        simp [hk2]
        rfl
  · intro p
    unfold PersonaAgent.qualityScore
    split_ifs <;> omega

/-- C5 witness: the theorem at two concrete parsed personas — the cited,
complete, long-bio one is kept (with its validation block) and the one
missing a bio is silently excluded. -/
theorem claim_C5_witness :
    PersonaAgent.validatePersonas c5Personas =
      .ok ((c5Personas.filter keepPersona).map (fun p =>
        Json.jset p "validation"
          (PersonaAgent.validationBlock p ((PersonaAgent.citationCheck p).getD false)))) ∧
    (c5Personas.filter keepPersona).length = 1 := by
  have h := claim_C5 c5Personas (by
    intro p hp
    simp only [c5Personas, List.mem_cons, List.not_mem_nil, or_false] at hp
    rcases hp with rfl | rfl <;> rfl)
  exact ⟨h.1, rfl⟩

namespace SheetsService

theorem validateSinglePersona_of_nameError (p : Json) (e : Bool)
    (he : nameError p = some e) :
    ∃ s, validateSinglePersona p = some s ∧ s.isValid = !e ∧
      (ageUnusual p = true → ageWarningMsg p ∈ s.warnings) := by
  unfold validateSinglePersona
  rw [he]
  refine ⟨_, rfl, rfl, ?_⟩
  intro hage
  unfold ageUnusual at hage
  unfold ageWarningMsg
  apply List.mem_append_left
  apply List.mem_append_left
  apply List.mem_append_left
  apply List.mem_append_left
  apply List.mem_append_left
  apply List.mem_append_left
  apply List.mem_append_left
  cases hg : p.jget "age" with
  | none =>
    rw [hg] at hage
    simp at hage
  | some v =>
    rw [hg] at hage
    simp only [Option.getD_some]
    cases hn : jsToNumber v with
    | none => exact List.mem_singleton.mpr rfl
    | some q =>
      have hage2 : (decide (q < 0) || decide (q > 120)) = true := by
        have h3 : (match jsToNumber v with
            | none => true
            | some q => decide (q < 0) || decide (q > 120)) = true := hage
        rw [hn] at h3
        exact h3
      simp [hage2]

theorem validateImportLoop_spec (total : Nat) (ps : List Json) :
    ∀ i : Nat, (∀ p ∈ ps, (nameError p).isSome = true) →
    ∃ r, validateImportLoop total i ps = some r ∧
      r.valid = ps.filter nameOk ∧
      r.total_imported = total ∧
      r.valid_personas = (ps.filter nameOk).length ∧
      r.invalid_personas = (ps.filter (fun p => !nameOk p)).length ∧
      r.personas_with_warnings = r.warnings.length ∧
      (∀ (j : Nat) (p : Json), ps.get? j = some p → nameOk p = true →
        ageUnusual p = true →
        p ∈ r.valid ∧ ∃ w ∈ r.warnings,
          w.jget "row" = some (Json.num ((i + j + 1 : Nat) : Rat)) ∧
          ∃ ws, w.jget "warnings" = some (Json.arr ws) ∧
            Json.str (ageWarningMsg p) ∈ ws) := by
  induction ps with
  | nil =>
    intro i hsafe
    refine ⟨emptyImportValidation total, rfl, rfl, rfl, rfl, rfl, rfl, ?_⟩
    intro j p hj
    simp at hj
  | cons p rest ih =>
    intro i hsafe
    have hp := hsafe p (List.mem_cons_self p rest)
    obtain ⟨e, he⟩ := Option.isSome_iff_exists.mp hp
    obtain ⟨s, hs, hsv, hsage⟩ := validateSinglePersona_of_nameError p e he
    obtain ⟨r', hr', hvalid', htot', hvp', hip', hpw', hage'⟩ :=
      ih (i + 1) (fun x hx => hsafe x (List.mem_cons_of_mem p hx))
    have hnameOk : nameOk p = !e := by unfold nameOk; rw [he]
    have hloop : validateImportLoop total i (p :: rest) =
        (if s.isValid then
          some { r' with
            valid := p :: r'.valid
            valid_personas := r'.valid_personas + 1
            warnings :=
              (if s.warnings.length > 0 then
                [Json.obj
                  [("persona_name", (p.jget "name").getD Json.null),
                   ("row", Json.num (i + 1 : Nat)),
                   ("warnings", Json.arr (s.warnings.map Json.str))]]
              else []) ++ r'.warnings
            personas_with_warnings :=
              r'.personas_with_warnings + (if s.warnings.length > 0 then 1 else 0) }
        else
          some { r' with
            errors :=
              Json.obj
                [("persona_name",
                  jsOrDefault (p.jget "name") (Json.str ("Row " ++ natToStr (i + 1)))),
                 ("row", Json.num (i + 1 : Nat)),
                 ("errors", Json.arr (s.errors.map Json.str))] :: r'.errors
            invalid_personas := r'.invalid_personas + 1 }) := by
      unfold validateImportLoop
      rw [hs, hr']
      rfl
    cases e with
    | false =>
      have hv : s.isValid = true := by rw [hsv]; rfl
      rw [hv, if_pos rfl] at hloop
      have hok : nameOk p = true := by rw [hnameOk]; rfl
      refine ⟨_, hloop, ?_, htot', ?_, ?_, ?_, ?_⟩
      · show p :: r'.valid = List.filter nameOk (p :: rest)
        rw [List.filter_cons, if_pos (by rw [hok]), hvalid']
      · show r'.valid_personas + 1 = (List.filter nameOk (p :: rest)).length
        rw [List.filter_cons, if_pos (by rw [hok]), hvp']
        simp
      · show r'.invalid_personas = (List.filter (fun x => !nameOk x) (p :: rest)).length
        rw [List.filter_cons, if_neg (by rw [hok]; simp), hip']
      · show r'.personas_with_warnings + _ = ((if s.warnings.length > 0 then _ else []) ++ r'.warnings).length
        rw [List.length_append, hpw']
        by_cases hw : s.warnings.length > 0
        · rw [if_pos hw, if_pos hw]
          simp [Nat.add_comm]
        · rw [if_neg hw, if_neg hw]
          simp
      · intro j q hj hq hage
        cases j with
        | zero =>
          simp only [List.get?] at hj
          injection hj with hj
          subst hj
          have hmem := hsage hage
          have hw : s.warnings.length > 0 :=
            List.length_pos.mpr (List.ne_nil_of_mem hmem)
          constructor
          · exact List.mem_cons_self _ _
          · refine ⟨_, List.mem_append_left _ (by rw [if_pos hw]; exact List.mem_singleton.mpr rfl), ?_, ?_⟩
            · rfl
            · exact ⟨s.warnings.map Json.str, rfl, List.mem_map_of_mem _ hmem⟩
        | succ j' =>
          simp only [List.get?] at hj
          obtain ⟨hqmem, w, hwmem, hrow, ws, hws, hwsmem⟩ := hage' j' q hj hq hage
          refine ⟨List.mem_cons_of_mem _ hqmem, w, List.mem_append_right _ hwmem, ?_, ws, hws, hwsmem⟩
          have heq : i + 1 + j' + 1 = i + (j' + 1) + 1 := by omega
          rw [hrow, heq]
    | true =>
      have hv : s.isValid = false := by rw [hsv]; rfl
      rw [hv, if_neg (by decide)] at hloop
      have hok : nameOk p = false := by rw [hnameOk]; rfl
      refine ⟨_, hloop, ?_, htot', ?_, ?_, hpw', ?_⟩
      · show r'.valid = List.filter nameOk (p :: rest)
        rw [List.filter_cons, if_neg (by rw [hok]; simp), hvalid']
      · show r'.valid_personas = (List.filter nameOk (p :: rest)).length
        rw [List.filter_cons, if_neg (by rw [hok]; simp), hvp']
      · show r'.invalid_personas + 1 = (List.filter (fun x => !nameOk x) (p :: rest)).length
        rw [List.filter_cons, if_pos (by simp [hok]), hip']
        simp
      · intro j q hj hq hage
        cases j with
        | zero =>
          simp only [List.get?] at hj
          injection hj with hj
          subst hj
          rw [hok] at hq
          exact absurd hq (by decide)
        | succ j' =>
          simp only [List.get?] at hj
          obtain ⟨hqmem, w, hwmem, hrow, ws, hws, hwsmem⟩ := hage' j' q hj hq hage
          refine ⟨hqmem, w, hwmem, ?_, ws, hws, hwsmem⟩
          have heq : i + 1 + j' + 1 = i + (j' + 1) + 1 := by omega
          rw [hrow, heq]

end SheetsService

/-- C6: for every batch of imported personas (whose name cells, as produced
by the row importer, are absent, falsy, or strings, so the name check itself
does not throw), the import validator keeps in `valid` exactly the personas
whose name requirement does not fire, counts valid and invalid personas
accordingly, and every kept persona whose age is outside [0, 120] stays in
the valid list while a warning entry with its row number and the
`Age ... seems unusual` text is recorded and counted in the batch summary
(`personas_with_warnings` equals the number of warning entries). -/
theorem claim_C6 (ps : List Json)
    (hsafe : ∀ p ∈ ps, (SheetsService.nameError p).isSome = true) :
    ∃ r, SheetsService.validatePersonas ps = some r ∧
      r.valid = ps.filter nameOk ∧
      r.valid_personas = (ps.filter nameOk).length ∧
      r.invalid_personas = (ps.filter (fun p => !nameOk p)).length ∧
      r.personas_with_warnings = r.warnings.length ∧
      (∀ (j : Nat) (p : Json), ps.get? j = some p → nameOk p = true →
        ageUnusual p = true →
        p ∈ r.valid ∧ ∃ w ∈ r.warnings,
          w.jget "row" = some (Json.num ((j + 1 : Nat) : Rat)) ∧
          ∃ ws, w.jget "warnings" = some (Json.arr ws) ∧
            Json.str (ageWarningMsg p) ∈ ws) := by
  obtain ⟨r, hr, hv, _, hvp, hip, hpw, hage⟩ :=
    SheetsService.validateImportLoop_spec ps.length ps 0 hsafe
  refine ⟨r, hr, hv, hvp, hip, hpw, ?_⟩
  intro j p hj hok hu
  have h := hage j p hj hok hu
  simpa using h

/-- C6 witness: the three-persona batch `c6Personas` (a complete persona,
one named Pat aged 150, one with no name) satisfies the name-safety
hypothesis, so the validator keeps exactly the two named personas and
records the age warning for Pat. -/
theorem claim_C6_witness :
    (∀ p ∈ c6Personas, (SheetsService.nameError p).isSome = true) ∧
    (∃ r, SheetsService.validatePersonas c6Personas = some r ∧
      r.valid = c6Personas.filter nameOk ∧
      r.valid_personas = (c6Personas.filter nameOk).length ∧
      r.invalid_personas = (c6Personas.filter (fun p => !nameOk p)).length ∧
      r.personas_with_warnings = r.warnings.length ∧
      (∀ (j : Nat) (p : Json), c6Personas.get? j = some p → nameOk p = true →
        ageUnusual p = true →
        p ∈ r.valid ∧ ∃ w ∈ r.warnings,
          w.jget "row" = some (Json.num ((j + 1 : Nat) : Rat)) ∧
          ∃ ws, w.jget "warnings" = some (Json.arr ws) ∧
            Json.str (ageWarningMsg p) ∈ ws)) :=
  ⟨by decide, claim_C6 c6Personas (by decide)⟩

theorem digitChar_isDigit (d : Nat) : (digitChar d).isDigit = true := by
  unfold digitChar
  split <;> decide

theorem digitVal_digitChar (d : Nat) (h : d < 10) : digitVal (digitChar d) = d := by
  interval_cases d <;> rfl

theorem natDigitsF_mem_isDigit : ∀ (f n : Nat), ∀ c ∈ natDigitsF f n, c.isDigit = true := by
  intro f
  induction f with
  | zero => intro n c hc; simp [natDigitsF] at hc
  | succ f ih =>
    intro n c hc
    unfold natDigitsF at hc
    by_cases h : n < 10
    · rw [if_pos h] at hc
      simp at hc
      subst hc
      exact digitChar_isDigit n
    · rw [if_neg h] at hc
      rcases List.mem_append.mp hc with h1 | h2
      · exact ih _ c h1
      · simp at h2
        subst h2
        exact digitChar_isDigit _

theorem digitsToNat_append_digit (l : List Char) (c : Char) :
    digitsToNat (l ++ [c]) = digitsToNat l * 10 + digitVal c := by
  unfold digitsToNat
  rw [List.foldl_append]
  rfl

theorem digitsToNat_natDigitsF : ∀ (f n : Nat), n < f → digitsToNat (natDigitsF f n) = n := by
  intro f
  induction f with
  | zero => intro n h; omega
  | succ f ih =>
    intro n h
    unfold natDigitsF
    by_cases h10 : n < 10
    · rw [if_pos h10]
      have h1 : digitsToNat [digitChar n] = digitVal (digitChar n) := by
        unfold digitsToNat
        simp [List.foldl]
      rw [h1, digitVal_digitChar n h10]
    · rw [if_neg h10, digitsToNat_append_digit, ih (n / 10) (by omega),
        digitVal_digitChar _ (Nat.mod_lt n (by omega))]
      omega

theorem digitsToNat_natToStr (n : Nat) : digitsToNat (natToStr n).data = n :=
  digitsToNat_natDigitsF (n + 1) n (Nat.lt_succ_self n)

theorem natToStr_data_digits (n : Nat) : ∀ c ∈ (natToStr n).data, c.isDigit = true :=
  fun c hc => natDigitsF_mem_isDigit (n + 1) n c hc

theorem natDigitsF_ne_nil (f n : Nat) : natDigitsF (f + 1) n ≠ [] := by
  unfold natDigitsF
  by_cases h : n < 10
  · rw [if_pos h]; simp
  · rw [if_neg h]; simp

theorem not_ws_of_digit (c : Char) (h : c.isDigit = true) : isJsWs c = false := by
  unfold isJsWs
  by_cases h1 : c = ' '
  · subst h1; exact absurd h (by decide)
  by_cases h2 : c = '\t'
  · subst h2; exact absurd h (by decide)
  by_cases h3 : c = '\n'
  · subst h3; exact absurd h (by decide)
  by_cases h4 : c = '\r'
  · subst h4; exact absurd h (by decide)
  simp [h1, h2, h3, h4]

theorem dropWhile_eq_self_of_none (p : Char → Bool) (l : List Char)
    (h : ∀ c ∈ l, p c = false) : l.dropWhile p = l := by
  cases l with
  | nil => rfl
  | cons c rest => simp [List.dropWhile, h c (List.mem_cons_self c rest)]

theorem takeWhile_eq_self_of_all (p : Char → Bool) (l : List Char)
    (h : ∀ c ∈ l, p c = true) : l.takeWhile p = l := by
  induction l with
  | nil => rfl
  | cons c rest ih =>
    simp [List.takeWhile, h c (List.mem_cons_self c rest),
      ih (fun x hx => h x (List.mem_cons_of_mem c hx))]

theorem jsTrim_eq_self_of_no_ws (s : String) (h : ∀ c ∈ s.data, isJsWs c = false) :
    jsTrim s = s := by
  unfold jsTrim trimChars
  rw [dropWhile_eq_self_of_none _ _ h,
    dropWhile_eq_self_of_none _ _ (fun c hc => h c (List.mem_reverse.mp hc)),
    List.reverse_reverse]

theorem natToStr_ne_empty (n : Nat) : natToStr n ≠ "" := by
  intro h
  have h2 : (natToStr n).data = [] := by rw [h]
  exact natDigitsF_ne_nil n n h2

theorem jsTrim_natToStr (n : Nat) : jsTrim (natToStr n) = natToStr n :=
  jsTrim_eq_self_of_no_ws _ (fun c hc => not_ws_of_digit c (natToStr_data_digits n c hc))

theorem parseIntJs_natToStr (n : Nat) : parseIntJs (natToStr n) = some (n : Int) := by
  unfold parseIntJs
  rw [dropWhile_eq_self_of_none _ _
    (fun c hc => not_ws_of_digit c (natToStr_data_digits n c hc))]
  cases hD : (natToStr n).data with
  | nil => exact absurd hD (natDigitsF_ne_nil n n)
  | cons c rest =>
    have hcd : c.isDigit = true :=
      natToStr_data_digits n c (by rw [hD]; exact List.mem_cons_self c rest)
    have hcm : ¬ c = '-' := fun e => by subst e; exact absurd hcd (by decide)
    have hcp : ¬ c = '+' := fun e => by subst e; exact absurd hcd (by decide)
    simp only [if_neg hcm, if_neg hcp]
    unfold parseDigitRun
    rw [takeWhile_eq_self_of_all _ _
      (fun x hx => natToStr_data_digits n x (by rw [hD]; exact hx))]
    have hval := digitsToNat_natToStr n
    rw [hD] at hval
    show some ((digitsToNat (c :: rest) : Nat) : Int) = some ((n : Nat) : Int)
    rw [hval]

theorem jsDisplay_natNum (a : Nat) : jsDisplay (Json.num (a : Rat)) = natToStr a := by
  show ratDecimalStr (a : Rat) = natToStr a
  unfold ratDecimalStr
  rw [if_pos (by simp)]
  have h1 : ((a : Nat) : Rat).num = (a : Int) := by simp
  rw [h1]
  unfold intToStr
  rw [if_neg (by omega)]
  rfl

theorem cellOf_str (s : String) (h : s ≠ "") :
    SheetsService.cellOf (some (Json.str s)) = s := by
  unfold SheetsService.cellOf
  rw [if_pos (by simp [Json.otruthy, Json.truthy, h])]
  rfl

theorem cellOf_natNum (a : Nat) (h : a ≠ 0) :
    SheetsService.cellOf (some (Json.num (a : Rat))) = natToStr a := by
  unfold SheetsService.cellOf
  rw [if_pos (by simp [Json.otruthy, Json.truthy, h])]
  exact jsDisplay_natNum a

theorem fget_importCell_ne (acc : List (String × Json)) (header value k : String)
    (hk : importKey header ≠ k) :
    Json.fget (SheetsService.importCell acc header value) k = Json.fget acc k := by
  unfold SheetsService.importCell
  split
  · rfl
  · cases hm : SheetsService.mapColumn header with
    | some mp =>
      have hkey : importKey header = mp := by unfold importKey; rw [hm]
      have hk2 : k ≠ mp := fun e => hk (hkey.trans e.symm)
      simp only [hm]
      split
      next hage =>
        rw [← hage]
        exact Json.fget_fset_ne _ _ _ _ hk2
      next =>
        split
        · exact Json.fget_fset_ne _ _ _ _ hk2
        · exact Json.fget_fset_ne _ _ _ _ hk2
    | none =>
      have hkey : importKey header = SheetsService.replaceWsUnderscore header := by
        unfold importKey; rw [hm]
      have hk2 : k ≠ SheetsService.replaceWsUnderscore header :=
        fun e => hk (hkey.trans e.symm)
      simp only [hm]
      exact Json.fget_fset_ne _ _ _ _ hk2

theorem fget_foldl_importCell (k : String) :
    ∀ (l : List (String × String)) (acc : List (String × Json)),
      l.all (fun hv => decide (importKey hv.1 ≠ k)) = true →
      Json.fget (l.foldl (fun a hv => SheetsService.importCell a hv.1 hv.2) acc) k
        = Json.fget acc k := by
  intro l
  induction l with
  | nil => intro acc _; rfl
  | cons hv rest ih =>
    intro acc hall
    rw [List.all_cons, Bool.and_eq_true] at hall
    rw [List.foldl_cons, ih _ hall.2,
      fget_importCell_ne _ _ _ _ (of_decide_eq_true hall.1)]

theorem importCell_name (acc : List (String × Json)) (n : String)
    (h1 : jsTrim n = n) (h2 : n ≠ "") :
    SheetsService.importCell acc "name" n = Json.fset acc "name" (Json.str n) := by
  unfold SheetsService.importCell
  rw [if_neg (by simp [h1, h2])]
  show Json.fset acc "name" (Json.str (jsTrim n)) = Json.fset acc "name" (Json.str n)
  rw [h1]

theorem importCell_age (acc : List (String × Json)) (a : Nat) :
    SheetsService.importCell acc "age" (natToStr a) =
      Json.fset acc "age" (Json.num (a : Rat)) := by
  unfold SheetsService.importCell
  rw [if_neg (by simp [jsTrim_natToStr, natToStr_ne_empty a])]
  show Json.fset acc "age" (Json.num (((parseIntJs (natToStr a)).getD 0 : Int) : Rat)) =
    Json.fset acc "age" (Json.num (a : Rat))
  rw [parseIntJs_natToStr a]
  simp

theorem importCell_cs (acc : List (String × Json)) (c : String)
    (h1 : jsTrim c = c) (h2 : c ≠ "") :
    SheetsService.importCell acc "communication style" c =
      Json.fset acc "communication_style" (Json.str c) := by
  unfold SheetsService.importCell
  rw [if_neg (by simp [h1, h2])]
  show Json.fset acc "communication_style" (Json.str (jsTrim c)) =
    Json.fset acc "communication_style" (Json.str c)
  rw [h1]

theorem parsePersonaFromRow_eq (row headers : List String) (now : String)
    (fields : List (String × Json))
    (hf : (headers.zip row).foldl (fun acc hv => SheetsService.importCell acc hv.1 hv.2) []
      = fields)
    (n : String) (hn : Json.fget fields "name" = some (Json.str n)) (hne : n ≠ "") :
    SheetsService.parsePersonaFromRow row headers now =
      some (Json.obj (Json.fset (Json.fset fields "source" (Json.str "julius_sheet"))
        "imported_at" (Json.str now))) := by
  subst hf
  unfold SheetsService.parsePersonaFromRow
  simp only []
  rw [hn]
  simp [Json.otruthy, Json.truthy, hne]

theorem buildExportRow_cells (p cd : Json) (row : List String)
    (h : SheetsService.buildExportRow p cd = some row) :
    ∃ c2 c3 c4 c5 c6 c7 c8 c9 c11 c12 c13 c14 c15 c16 c17 c18 c19 c20 c21 c22 c23 c24 c25 c26 c27,
      row = [SheetsService.cellOf (p.jget "name"), SheetsService.cellOf (p.jget "age"),
        c2, c3, c4, c5, c6, c7, c8, c9,
        SheetsService.cellOf (p.jget "communication_style"),
        c11, c12, c13, c14, c15, c16, c17, c18, c19, c20, c21, c22, c23, c24, c25, c26, c27] := by
  unfold SheetsService.buildExportRow at h
  simp only [bind, Option.bind_eq_some, Option.pure_def, Option.some.injEq] at h
  obtain ⟨oc, hoc, sc, hsc, hrow⟩ := h
  exact ⟨_, _, _, _, _, _, _, _, _, _, _, _, _, _, _, _, _, _, _, _, _, _, _, _, _,
    hrow.symm⟩

/-- C8 (amended): once the export row of a persona is in hand, re-importing
it through `parsePersonaFromRow` with the export headers recovers name, age
and communication_style exactly, provided name and communication_style are
nonempty trimmed strings and the age is a nonzero natural number (falsy or
reformatted cells break the identity, and the deployed export operation
itself always throws, see C3). -/
theorem claim_C8_amended (persona campaignData : Json) (now : String)
    (row : List String) (n c : String) (a : Nat)
    (hname : persona.jget "name" = some (Json.str n))
    (hn1 : jsTrim n = n) (hn2 : n ≠ "")
    (hage : persona.jget "age" = some (Json.num (a : Rat))) (ha : a ≠ 0)
    (hcs : persona.jget "communication_style" = some (Json.str c))
    (hc1 : jsTrim c = c) (hc2 : c ≠ "")
    (hrow : SheetsService.buildExportRow persona campaignData = some row) :
    ∃ q, SheetsService.parsePersonaFromRow row SheetsService.exportHeadersLower now
        = some q ∧
      q.jget "name" = persona.jget "name" ∧
      q.jget "age" = persona.jget "age" ∧
      q.jget "communication_style" = persona.jget "communication_style" := by
  obtain ⟨c2, c3, c4, c5, c6, c7, c8, c9, c11, c12, c13, c14, c15, c16, c17, c18, c19, c20, c21, c22, c23, c24, c25, c26, c27, hR⟩ := buildExportRow_cells persona campaignData row hrow
  rw [hname, cellOf_str n hn2, hage, cellOf_natNum a ha, hcs, cellOf_str c hc2] at hR
  subst hR
  rw [hname, hage, hcs]
  have hFname : Json.fget
      ((SheetsService.exportHeadersLower.zip
      [n, natToStr a, c2, c3, c4, c5, c6, c7, c8, c9, c, c11, c12, c13, c14, c15, c16, c17, c18, c19, c20, c21, c22, c23, c24, c25, c26, c27]).foldl
      (fun acc hv => SheetsService.importCell acc hv.1 hv.2) []) "name" = some (Json.str n) := by
    have e1 : ((SheetsService.exportHeadersLower.zip
      [n, natToStr a, c2, c3, c4, c5, c6, c7, c8, c9, c, c11, c12, c13, c14, c15, c16, c17, c18, c19, c20, c21, c22, c23, c24, c25, c26, c27]).foldl
      (fun acc hv => SheetsService.importCell acc hv.1 hv.2) [])
        = List.foldl (fun acc hv => SheetsService.importCell acc hv.1 hv.2)
          (SheetsService.importCell (SheetsService.importCell [] "name" n) "age" (natToStr a))
          [("gender", c2),
         ("location", c3),
         ("occupation", c4),
         ("education", c5),
         ("income", c6),
         ("original bio", c7),
         ("interests", c8),
         ("values", c9),
         ("communication style", c),
         ("social media - facebook", c11),
         ("social media - linkedin", c12),
         ("social media - other", c13),
         ("professional background", c14),
         ("community involvement", c15),
         ("legal motivations", c16),
         ("legal barriers", c17),
         ("legal experience", c18),
         ("preferred legal communication", c19),
         ("decision timeline", c20),
         ("trust factors", c21),
         ("document insights", c22),
         ("enrichment sources", c23),
         ("confidence score", c24),
         ("original source", c25),
         ("enriched date", c26),
         ("campaign matter", c27)] := rfl
    rw [e1, fget_foldl_importCell "name"
      [("gender", c2),
         ("location", c3),
         ("occupation", c4),
         ("education", c5),
         ("income", c6),
         ("original bio", c7),
         ("interests", c8),
         ("values", c9),
         ("communication style", c),
         ("social media - facebook", c11),
         ("social media - linkedin", c12),
         ("social media - other", c13),
         ("professional background", c14),
         ("community involvement", c15),
         ("legal motivations", c16),
         ("legal barriers", c17),
         ("legal experience", c18),
         ("preferred legal communication", c19),
         ("decision timeline", c20),
         ("trust factors", c21),
         ("document insights", c22),
         ("enrichment sources", c23),
         ("confidence score", c24),
         ("original source", c25),
         ("enriched date", c26),
         ("campaign matter", c27)] _ rfl,
      importCell_age _ a, importCell_name _ n hn1 hn2]
    rfl
  have hFage : Json.fget
      ((SheetsService.exportHeadersLower.zip
      [n, natToStr a, c2, c3, c4, c5, c6, c7, c8, c9, c, c11, c12, c13, c14, c15, c16, c17, c18, c19, c20, c21, c22, c23, c24, c25, c26, c27]).foldl
      (fun acc hv => SheetsService.importCell acc hv.1 hv.2) []) "age" = some (Json.num (a : Rat)) := by
    have e1 : ((SheetsService.exportHeadersLower.zip
      [n, natToStr a, c2, c3, c4, c5, c6, c7, c8, c9, c, c11, c12, c13, c14, c15, c16, c17, c18, c19, c20, c21, c22, c23, c24, c25, c26, c27]).foldl
      (fun acc hv => SheetsService.importCell acc hv.1 hv.2) [])
        = List.foldl (fun acc hv => SheetsService.importCell acc hv.1 hv.2)
          (SheetsService.importCell (SheetsService.importCell [] "name" n) "age" (natToStr a))
          [("gender", c2),
         ("location", c3),
         ("occupation", c4),
         ("education", c5),
         ("income", c6),
         ("original bio", c7),
         ("interests", c8),
         ("values", c9),
         ("communication style", c),
         ("social media - facebook", c11),
         ("social media - linkedin", c12),
         ("social media - other", c13),
         ("professional background", c14),
         ("community involvement", c15),
         ("legal motivations", c16),
         ("legal barriers", c17),
         ("legal experience", c18),
         ("preferred legal communication", c19),
         ("decision timeline", c20),
         ("trust factors", c21),
         ("document insights", c22),
         ("enrichment sources", c23),
         ("confidence score", c24),
         ("original source", c25),
         ("enriched date", c26),
         ("campaign matter", c27)] := rfl
    rw [e1, fget_foldl_importCell "age"
      [("gender", c2),
         ("location", c3),
         ("occupation", c4),
         ("education", c5),
         ("income", c6),
         ("original bio", c7),
         ("interests", c8),
         ("values", c9),
         ("communication style", c),
         ("social media - facebook", c11),
         ("social media - linkedin", c12),
         ("social media - other", c13),
         ("professional background", c14),
         ("community involvement", c15),
         ("legal motivations", c16),
         ("legal barriers", c17),
         ("legal experience", c18),
         ("preferred legal communication", c19),
         ("decision timeline", c20),
         ("trust factors", c21),
         ("document insights", c22),
         ("enrichment sources", c23),
         ("confidence score", c24),
         ("original source", c25),
         ("enriched date", c26),
         ("campaign matter", c27)] _ rfl,
      importCell_age _ a]
    exact Json.fget_fset_self _ _ _
  have hFcs : Json.fget
      ((SheetsService.exportHeadersLower.zip
      [n, natToStr a, c2, c3, c4, c5, c6, c7, c8, c9, c, c11, c12, c13, c14, c15, c16, c17, c18, c19, c20, c21, c22, c23, c24, c25, c26, c27]).foldl
      (fun acc hv => SheetsService.importCell acc hv.1 hv.2) []) "communication_style" = some (Json.str c) := by
    have e2 : ((SheetsService.exportHeadersLower.zip
      [n, natToStr a, c2, c3, c4, c5, c6, c7, c8, c9, c, c11, c12, c13, c14, c15, c16, c17, c18, c19, c20, c21, c22, c23, c24, c25, c26, c27]).foldl
      (fun acc hv => SheetsService.importCell acc hv.1 hv.2) [])
        = List.foldl (fun acc hv => SheetsService.importCell acc hv.1 hv.2)
          (SheetsService.importCell
            (List.foldl (fun acc hv => SheetsService.importCell acc hv.1 hv.2)
              (SheetsService.importCell (SheetsService.importCell [] "name" n) "age" (natToStr a))
              [("gender", c2),
         ("location", c3),
         ("occupation", c4),
         ("education", c5),
         ("income", c6),
         ("original bio", c7),
         ("interests", c8),
         ("values", c9)]) "communication style" c)
          [("social media - facebook", c11),
         ("social media - linkedin", c12),
         ("social media - other", c13),
         ("professional background", c14),
         ("community involvement", c15),
         ("legal motivations", c16),
         ("legal barriers", c17),
         ("legal experience", c18),
         ("preferred legal communication", c19),
         ("decision timeline", c20),
         ("trust factors", c21),
         ("document insights", c22),
         ("enrichment sources", c23),
         ("confidence score", c24),
         ("original source", c25),
         ("enriched date", c26),
         ("campaign matter", c27)] := by
      show List.foldl (fun acc hv => SheetsService.importCell acc hv.1 hv.2)
          (SheetsService.importCell (SheetsService.importCell [] "name" n) "age" (natToStr a))
          ([("gender", c2),
         ("location", c3),
         ("occupation", c4),
         ("education", c5),
         ("income", c6),
         ("original bio", c7),
         ("interests", c8),
         ("values", c9)] ++
            ("communication style", c) :: [("social media - facebook", c11),
         ("social media - linkedin", c12),
         ("social media - other", c13),
         ("professional background", c14),
         ("community involvement", c15),
         ("legal motivations", c16),
         ("legal barriers", c17),
         ("legal experience", c18),
         ("preferred legal communication", c19),
         ("decision timeline", c20),
         ("trust factors", c21),
         ("document insights", c22),
         ("enrichment sources", c23),
         ("confidence score", c24),
         ("original source", c25),
         ("enriched date", c26),
         ("campaign matter", c27)])
        = _
      rw [List.foldl_append]
      rfl
    rw [e2, fget_foldl_importCell "communication_style"
      [("social media - facebook", c11),
         ("social media - linkedin", c12),
         ("social media - other", c13),
         ("professional background", c14),
         ("community involvement", c15),
         ("legal motivations", c16),
         ("legal barriers", c17),
         ("legal experience", c18),
         ("preferred legal communication", c19),
         ("decision timeline", c20),
         ("trust factors", c21),
         ("document insights", c22),
         ("enrichment sources", c23),
         ("confidence score", c24),
         ("original source", c25),
         ("enriched date", c26),
         ("campaign matter", c27)] _ rfl,
      importCell_cs _ c hc1 hc2]
    exact Json.fget_fset_self _ _ _
  refine ⟨_, parsePersonaFromRow_eq _ _ now _ rfl n hFname hn2, ?_, ?_, ?_⟩
  · rw [Json.jget_obj, Json.fget_fset_ne _ _ _ _ (by decide),
      Json.fget_fset_ne _ _ _ _ (by decide), hFname]
  · rw [Json.jget_obj, Json.fget_fset_ne _ _ _ _ (by decide),
      Json.fget_fset_ne _ _ _ _ (by decide), hFage]
  · rw [Json.jget_obj, Json.fget_fset_ne _ _ _ _ (by decide),
      Json.fget_fset_ne _ _ _ _ (by decide), hFcs]

/-- C8 (counterexample): the persona named Ana with age 0 exports its age
cell as the empty string (`persona.age || ''` is falsy at 0), so the
re-imported persona has no age field at all: the round trip does not
recover the age value. -/
theorem claim_C8_counterexample :
    c8Persona.jget "age" = some (Json.num 0) ∧
    SheetsService.buildExportRow c8Persona c8Campaign = some c8Row ∧
    SheetsService.parsePersonaFromRow c8Row SheetsService.exportHeadersLower "T"
      = some c8Reimported ∧
    c8Reimported.jget "age" = none :=
  ⟨rfl, rfl, rfl, rfl⟩

/-- C8 witness: a persona with a trimmed nonempty name and communication
style and a nonzero integer age survives the row round trip on those three
fields. -/
theorem claim_C8_witness :
    (c8wPersona.jget "name" = some (Json.str "Robert Two Bears") ∧
     jsTrim "Robert Two Bears" = "Robert Two Bears" ∧ "Robert Two Bears" ≠ "" ∧
     c8wPersona.jget "age" = some (Json.num ((34 : Nat) : Rat)) ∧ (34 : Nat) ≠ 0 ∧
     c8wPersona.jget "communication_style" = some (Json.str "plain spoken") ∧
     jsTrim "plain spoken" = "plain spoken" ∧ "plain spoken" ≠ "" ∧
     SheetsService.buildExportRow c8wPersona c8Campaign = some c8wRow) ∧
    (∃ q, SheetsService.parsePersonaFromRow c8wRow SheetsService.exportHeadersLower "T"
        = some q ∧
      q.jget "name" = c8wPersona.jget "name" ∧
      q.jget "age" = c8wPersona.jget "age" ∧
      q.jget "communication_style" = c8wPersona.jget "communication_style") :=
  ⟨⟨rfl, rfl, by decide, rfl, by decide, rfl, rfl, by decide, rfl⟩,
   claim_C8_amended c8wPersona c8Campaign "T" c8wRow "Robert Two Bears" "plain spoken" 34
     rfl rfl (by decide) rfl (by decide) rfl rfl (by decide) rfl⟩
